import Mathlib

/-!
# Verification of the space-flight game core (src/game.js)

A shallow embedding of the frame-stepped simulation of `src/game.js`:
entity records, per-tick motion, spawning, AABB collision resolution,
life/invincibility bookkeeping, pause and reset.  Coordinates and
timestamps are rationals (JS numbers used only through `+ - * / < >`),
lives and scores are integers, frame counters are integers.

Presentation concerns (canvas drawing, DOM, audio, console logging) are
out of scope, as the specification declares; the functions below model
exactly the state mutations of the corresponding JS functions.
Randomness (`Math.random()`, always a draw in `[0,1)`) is passed in as
explicit rational parameters; wall-clock time (`Date.now()`) is passed
in as an explicit `now` parameter.
-/

namespace SpaceFlight

/-! ## Configuration (the `config` object) -/

def config_width : ℚ := 1000

def config_height : ℚ := 600

def config_playerSpeed : ℚ := 3

def config_bulletSpeed : ℚ := 7

def config_asteroidSpeed : ℚ := 1

def config_asteroidSpawnRate : ℤ := 100

def config_heartSpawnRate : ℤ := 500

def config_invincibilityDuration : ℚ := 2000

def config_heartSize : ℚ := 30

def config_heartSpeed : ℚ := 1/2

/-! ## Entity records -/

/-- An axis-aligned rectangle, the common collision view of all entities. -/
structure Rect where
  x : ℚ
  y : ℚ
  width : ℚ
  height : ℚ
deriving DecidableEq, Repr

/-- The half-open AABB overlap test used by every collision check in the
source (`a.x < b.x + b.width && a.x + a.width > b.x && ...`). -/
def Rect.overlap (a b : Rect) : Bool :=
  decide (a.x < b.x + b.width) && decide (a.x + a.width > b.x) &&
  decide (a.y < b.y + b.height) && decide (a.y + a.height > b.y)

/-- A bullet (`shoot` pushes `{x, y, width: 15, height: 3, speed, color}`;
the color is cosmetic and omitted). -/
structure Bullet where
  x : ℚ
  y : ℚ
  width : ℚ
  height : ℚ
  speed : ℚ
deriving DecidableEq, Repr

/-- An asteroid (`spawnAsteroid` pushes `{x, y, width, height, speed}`;
the cosmetic `rotation` added lazily by `drawAsteroids` is omitted). -/
structure Asteroid where
  x : ℚ
  y : ℚ
  width : ℚ
  height : ℚ
  speed : ℚ
deriving DecidableEq, Repr

/-- A heart (`spawnHeart`). -/
structure Heart where
  x : ℚ
  y : ℚ
  width : ℚ
  height : ℚ
  speed : ℚ
  rotation : ℚ
  rotationSpeed : ℚ
deriving DecidableEq, Repr

/-- An explosion effect (`createExplosion` / class `Explosion`); the random
particle list is cosmetic and omitted, the state-relevant fields are kept. -/
structure Explosion where
  x : ℚ
  y : ℚ
  size : ℚ
  startTime : ℚ
deriving DecidableEq, Repr

/-- A player object (`player1` / `player2` globals).  `name` and `color`
are cosmetic and omitted. -/
structure Player where
  x : ℚ
  y : ℚ
  width : ℚ
  height : ℚ
  speed : ℚ
  lives : ℤ
  bullets : List Bullet
  isActive : Bool
deriving DecidableEq, Repr

def Player.toRect (p : Player) : Rect := ⟨p.x, p.y, p.width, p.height⟩

def Bullet.toRect (b : Bullet) : Rect := ⟨b.x, b.y, b.width, b.height⟩

def Asteroid.toRect (a : Asteroid) : Rect := ⟨a.x, a.y, a.width, a.height⟩

def Heart.toRect (h : Heart) : Rect := ⟨h.x, h.y, h.width, h.height⟩

/-- The whole mutable state: the `gameState` global flattened together with
the `player1`, `player2`, `asteroids` and `hearts` globals.  The cosmetic
`stars` array and the timer/animation handles are omitted. -/
structure Game where
  player1 : Player
  player2 : Player
  asteroids : List Asteroid
  hearts : List Heart
  score : ℤ
  gameOver : Bool
  isPaused : Bool
  lastAsteroidSpawn : ℤ
  frameCount : ℤ
  lastHitTime1 : ℚ
  lastHitTime2 : ℚ
  pauseTime : ℚ
  pauseStart : ℚ
  isTwoPlayerMode : Bool
  explosions : List Explosion
deriving DecidableEq, Repr

/-- The two player identities (the JS code distinguishes them by object
identity, `player === player1 ? 'player1' : 'player2'`). -/
inductive PlayerId where
  | one
  | two
deriving DecidableEq, Repr

def Game.getPlayer (g : Game) : PlayerId → Player
  | .one => g.player1
  | .two => g.player2

def Game.setPlayer (g : Game) : PlayerId → Player → Game
  | .one, p => { g with player1 := p }
  | .two, p => { g with player2 := p }

def Game.getLastHitTime (g : Game) : PlayerId → ℚ
  | .one => g.lastHitTime1
  | .two => g.lastHitTime2

def Game.setLastHitTime (g : Game) : PlayerId → ℚ → Game
  | .one, t => { g with lastHitTime1 := t }
  | .two, t => { g with lastHitTime2 := t }

/-! ## Initial globals -/

/-- The initial `player1` global. -/
def player1Init : Player :=
  { x := 100, y := config_height / 2, width := 60, height := 30,
    speed := config_playerSpeed, lives := 3, bullets := [], isActive := true }

/-- The initial `player2` global. -/
def player2Init : Player :=
  { x := 100, y := config_height / 2 - 100, width := 60, height := 30,
    speed := config_playerSpeed, lives := 3, bullets := [], isActive := true }

/-- The initial `gameState` global together with the initial entity lists. -/
def initialGame : Game :=
  { player1 := player1Init, player2 := player2Init, asteroids := [], hearts := [],
    score := 0, gameOver := false, isPaused := false, lastAsteroidSpawn := 0,
    frameCount := 0, lastHitTime1 := 0, lastHitTime2 := 0, pauseTime := 0,
    pauseStart := 0, isTwoPlayerMode := true, explosions := [] }

/-! ## Motion integrator -/

/-- `updatePlayer(player, upKey, downKey)`: move up when the up key is held
and `y > 0`, then move down when the down key is held and
`y < config.height - player.height`.  (The function also computes an
`isInvincible` flag that it never uses — movement is always allowed.) -/
def updatePlayer (upHeld downHeld : Bool) (p : Player) : Player :=
  let q := if upHeld && decide (p.y > 0) then { p with y := p.y - p.speed } else p
  if downHeld && decide (q.y < config_height - q.height) then
    { q with y := q.y + q.speed }
  else q

/-- `updateBullets(player)`: advance each bullet by its speed and drop the
ones with `bullet.x > config.width` (backward splice loop = filter). -/
def updateBullets (p : Player) : Player :=
  let moved := p.bullets.map fun b => { b with x := b.x + b.speed }
  { p with bullets := moved.filter fun b => !decide (b.x > config_width) }

/-- `updateAsteroids()`: advance each asteroid left by its speed and drop
the ones with `asteroid.x + asteroid.width < 0`. -/
def updateAsteroids (as : List Asteroid) : List Asteroid :=
  let moved := as.map fun a => { a with x := a.x - a.speed }
  moved.filter fun a => !decide (a.x + a.width < 0)

/-- `updateHearts()`: advance each heart left, turn it, and drop the ones
with `heart.x + heart.width < 0`. -/
def updateHearts (hs : List Heart) : List Heart :=
  let moved := hs.map fun h =>
    { h with x := h.x - h.speed, rotation := h.rotation + h.rotationSpeed }
  moved.filter fun h => !decide (h.x + h.width < 0)

/-! ## Spawner -/

/-- `spawnAsteroid()`, with the three `Math.random()` draws (size, vertical
position, speed factor) passed in as `r1 r2 r3 ∈ [0,1)`. -/
def spawnAsteroid (r1 r2 r3 : ℚ) : Asteroid :=
  let size := r1 * 30 + 20
  { x := config_width, y := r2 * (config_height - size),
    width := size, height := size,
    speed := config_asteroidSpeed * (1/2 + r3 * (1/2)) }

/-- `spawnHeart()`, with the two `Math.random()` draws (vertical position,
rotation speed) passed in as `r1 r2 ∈ [0,1)`. -/
def spawnHeart (r1 r2 : ℚ) : Heart :=
  { x := config_width, y := r1 * (config_height - config_heartSize),
    width := config_heartSize, height := config_heartSize,
    speed := config_heartSpeed, rotation := 0,
    rotationSpeed := (r2 - 1/2) * (1/10) }

/-! ## Collision engine -/

/-- `checkHeartCollection(player)`: a backward splice loop that, for every
heart overlapping the player's (unchanging) rectangle, increments
`player.lives` and removes the heart.  Note the source has **no** check of
`player.lives` here.  (The `+1 LIFE` DOM effect is cosmetic.) -/
def checkHeartCollection (p : Player) (hs : List Heart) : Player × List Heart :=
  let collected : ℤ := hs.countP fun h => p.toRect.overlap h.toRect
  ({ p with lives := p.lives + collected },
   hs.filter fun h => !(p.toRect.overlap h.toRect))

/-- `checkGameOver()`: sets the game-over flag when player 1 is dead and
— in two-player mode — player 2 is inactive or dead.  (DOM overlay and
score-interval clearing are presentation.) -/
def checkGameOver (g : Game) : Game :=
  let player1Dead := decide (g.player1.lives ≤ 0)
  let player2Dead := !g.player2.isActive || decide (g.player2.lives ≤ 0)
  if (g.isTwoPlayerMode && player1Dead && player2Dead) ||
      (!g.isTwoPlayerMode && player1Dead) then
    { g with gameOver := true }
  else g

/-- The scan of `checkPlayerCollision`'s `for` loop, which runs from the
**last** index down to index 0 and breaks on the first overlap: the hit
asteroid is the overlapping one of largest index. -/
def findCollisionRev (p : Player) (as : List Asteroid) : Option (ℕ × Asteroid) :=
  as.enum.reverse.find? fun ia => p.toRect.overlap ia.2.toRect

/-- `checkPlayerCollision(player)`: skip if dead or invincible
(`now - lastHitTime < config.invincibilityDuration` on the raw
`Date.now()` clock); on the first overlapping asteroid of the backward
scan, decrement lives, record the hit timestamp, splice the asteroid out,
and break; if lives reached 0, clamp to 0 and run `checkGameOver`.
(The screen flash is presentation.) -/
def checkPlayerCollision (now : ℚ) (g : Game) (pid : PlayerId) : Game :=
  let p := g.getPlayer pid
  if decide (p.lives ≤ 0) then g
  else if decide (now - g.getLastHitTime pid < config_invincibilityDuration) then g
  else
    match findCollisionRev p g.asteroids with
    | none => g
    | some ia =>
        let hit := { p with lives := p.lives - 1 }
        let g1 := ((g.setPlayer pid hit).setLastHitTime pid now)
        let g2 := { g1 with asteroids := g1.asteroids.eraseIdx ia.1 }
        if decide (hit.lives ≤ 0) then
          checkGameOver (g2.setPlayer pid { hit with lives := 0 })
        else g2

/-- The per-tick accumulator of `checkBulletCollisions`: the
`bulletsToRemove` and `asteroidsToRemove` index arrays, the score gained
(`gameState.score += 10` per overlapping pair) and the explosions created. -/
structure ScanResult where
  bulletsToRemove : List ℕ
  asteroidsToRemove : List ℕ
  scoreGain : ℤ
  newExplosions : List Explosion
deriving DecidableEq, Repr

/-- `createExplosion` at the asteroid's center with
`size = max(width, height)` (class `Explosion` stores `Date.now()`). -/
def mkExplosion (a : Asteroid) (now : ℚ) : Explosion :=
  { x := a.x + a.width / 2, y := a.y + a.height / 2,
    size := max a.width a.height, startTime := now }

/-- The body of the inner `asteroids.forEach` for one bullet `b` of index
`bi` and one indexed asteroid `aa`: on overlap, push `bi` onto
`bulletsToRemove` (unconditionally — the loop does **not** break after a
match), push the asteroid index onto `asteroidsToRemove` only if not
already present (creating the explosion then), and add 10 to the score. -/
def scanStep (now : ℚ) (bi : ℕ) (b : Bullet) (acc : ScanResult)
    (aa : ℕ × Asteroid) : ScanResult :=
  if b.toRect.overlap aa.2.toRect then
    let acc1 := { acc with bulletsToRemove := acc.bulletsToRemove ++ [bi] }
    let acc2 :=
      if acc1.asteroidsToRemove.contains aa.1 then acc1
      else { acc1 with
              asteroidsToRemove := acc1.asteroidsToRemove ++ [aa.1],
              newExplosions := acc1.newExplosions ++ [mkExplosion aa.2 now] }
    { acc2 with scoreGain := acc2.scoreGain + 10 }
  else acc

/-- The inner `asteroids.forEach((asteroid, asteroidIndex) => ...)` of
`checkBulletCollisions` for one bullet `b` of index `bi`: `ai` is the
index of the head of the remaining asteroid list. -/
def scanAsteroids (now : ℚ) (bi : ℕ) (b : Bullet) :
    ℕ → List Asteroid → ScanResult → ScanResult
  | _, [], acc => acc
  | ai, a :: rest, acc =>
      scanAsteroids now bi b (ai + 1) rest (scanStep now bi b acc (ai, a))

/-- The outer `player.bullets.forEach((bullet, bulletIndex) => ...)` of
`checkBulletCollisions`: `bi` is the index of the head of the remaining
bullet list. -/
def scanBullets (now : ℚ) (asteroids : List Asteroid) :
    ℕ → List Bullet → ScanResult → ScanResult
  | _, [], acc => acc
  | bi, b :: rest, acc =>
      scanBullets now asteroids (bi + 1) rest (scanAsteroids now bi b 0 asteroids acc)

/-- The nested `player.bullets.forEach / asteroids.forEach` scan of
`checkBulletCollisions`, starting from empty removal arrays. -/
def bulletScan (now : ℚ) (bullets : List Bullet) (asteroids : List Asteroid) :
    ScanResult :=
  scanBullets now asteroids 0 bullets
    { bulletsToRemove := [], asteroidsToRemove := [], scoreGain := 0,
      newExplosions := [] }

/-- `array.splice(i, 1)` for each index in order (a no-op for an index past
the end, as in JS). -/
def spliceEach (l : List α) (idxs : List ℕ) : List α :=
  idxs.foldl (fun acc i => acc.eraseIdx i) l

/-- One step of `asteroidsToRemove.sort((a, b) => b - a)`: insert into a
descending list. -/
def insertDesc (x : ℕ) : List ℕ → List ℕ
  | [] => [x]
  | y :: ys => if decide (y < x) then x :: y :: ys else y :: insertDesc x ys

/-- `sort((a, b) => b - a)`: numeric descending sort. -/
def sortDesc : List ℕ → List ℕ
  | [] => []
  | x :: xs => insertDesc x (sortDesc xs)

/-- `checkBulletCollisions(player)`: run the scan, then remove the marked
bullets by splicing at each recorded index in reversed push order, and the
marked asteroids by splicing in descending index order; add the score and
the explosions (score and explosions are accumulated during the scan in
the source, but nothing in the scan reads them, so adding them after is
the same).  (Audio is presentation.) -/
def checkBulletCollisions (now : ℚ) (g : Game) (pid : PlayerId) : Game :=
  let p := g.getPlayer pid
  let scan := bulletScan now p.bullets g.asteroids
  let g1 := g.setPlayer pid
    { p with bullets := spliceEach p.bullets scan.bulletsToRemove.reverse }
  { g1 with
      asteroids := spliceEach g1.asteroids (sortDesc scan.asteroidsToRemove),
      score := g1.score + scan.scoreGain,
      explosions := g1.explosions ++ scan.newExplosions }

/-- `checkCollisions()`: player-asteroid, then bullet-asteroid, then
heart collection, each for player 1 and then (in two-player mode only)
player 2. -/
def checkCollisions (now : ℚ) (g : Game) : Game :=
  let g1 := checkPlayerCollision now g .one
  let g2 := if g1.isTwoPlayerMode then checkPlayerCollision now g1 .two else g1
  let g3 := checkBulletCollisions now g2 .one
  let g4 := if g3.isTwoPlayerMode then checkBulletCollisions now g3 .two else g3
  let h1 := checkHeartCollection g4.player1 g4.hearts
  let g5 := { g4 with player1 := h1.1, hearts := h1.2 }
  if g5.isTwoPlayerMode then
    let h2 := checkHeartCollection g5.player2 g5.hearts
    { g5 with player2 := h2.1, hearts := h2.2 }
  else g5

/-! ## Session controller -/

/-- The held movement keys read by `update` (`keys['ArrowUp']`,
`keys['ArrowDown']`, `keys['w']`, `keys['s']`). -/
structure Keys where
  arrowUp : Bool
  arrowDown : Bool
  wHeld : Bool
  sHeld : Bool
deriving DecidableEq, Repr

/-- The `Math.random()` draws a single tick may consume: three for
`spawnAsteroid`, one for the 30% heart trial, two for `spawnHeart`. -/
structure TickRand where
  r1 : ℚ
  r2 : ℚ
  r3 : ℚ
  rh : ℚ
  rhy : ℚ
  rhr : ℚ
deriving DecidableEq, Repr

/-- `shoot(player)`: push a bullet unless the game is over.  (Note: the
source checks only `gameState.gameOver`, not the player's lives.) -/
def shoot (g : Game) (pid : PlayerId) : Game :=
  if g.gameOver then g
  else
    let p := g.getPlayer pid
    g.setPlayer pid
      { p with bullets := p.bullets ++
          [{ x := p.x + p.width, y := p.y + p.height / 2 - 3/2,
             width := 15, height := 3, speed := config_bulletSpeed }] }

/-- The movement block at the head of `update`: `updatePlayer` for
player 1 when `player1.lives > 0`, then for player 2 when in two-player
mode with `player2.lives > 0`. -/
def movePhase (keys : Keys) (g : Game) : Game :=
  let ga := if decide (g.player1.lives > 0) then
      { g with player1 := updatePlayer keys.arrowUp keys.arrowDown g.player1 }
    else g
  if ga.isTwoPlayerMode && decide (ga.player2.lives > 0) then
    { ga with player2 := updatePlayer keys.wHeld keys.sHeld ga.player2 }
  else ga

/-- The spawn block of `update`: `gameState.frameCount++`, then
`spawnAsteroid` when `frameCount - lastAsteroidSpawn > config.asteroidSpawnRate`
(recording `lastAsteroidSpawn = frameCount`), then `spawnHeart` when
`frameCount % config.heartSpawnRate === 0 && Math.random() < 0.3`. -/
def spawnPhase (rnd : TickRand) (g : Game) : Game :=
  let gc := { g with frameCount := g.frameCount + 1 }
  let gd := if decide (gc.frameCount - gc.lastAsteroidSpawn > config_asteroidSpawnRate) then
      { gc with asteroids := gc.asteroids ++ [spawnAsteroid rnd.r1 rnd.r2 rnd.r3],
                lastAsteroidSpawn := gc.frameCount }
    else gc
  if decide (gd.frameCount % config_heartSpawnRate = 0) && decide (rnd.rh < 3/10) then
    { gd with hearts := gd.hearts ++ [spawnHeart rnd.rhy rnd.rhr] }
  else gd

/-- The motion block of `update`: `updateBullets` for player 1 (and for
player 2 in two-player mode), then `updateAsteroids` and `updateHearts`. -/
def motionPhase (g : Game) : Game :=
  let gf := { g with player1 := updateBullets g.player1 }
  let gg := if gf.isTwoPlayerMode then { gf with player2 := updateBullets gf.player2 } else gf
  let gh := { gg with asteroids := updateAsteroids gg.asteroids }
  { gh with hearts := updateHearts gh.hearts }

/-- `update(deltaTime)`: one simulation tick — nothing when game over or
paused; otherwise the movement block, the spawn block, the motion block
and `checkCollisions`, in the source's order.  (`deltaTime` is computed
by `gameLoop` but never used by `update`; HUD refresh is presentation.) -/
def update (now : ℚ) (keys : Keys) (rnd : TickRand) (g : Game) : Game :=
  if g.gameOver || g.isPaused then g
  else checkCollisions now (motionPhase (spawnPhase rnd (movePhase keys g)))

/-- `togglePause()`: flip the flag; on pausing record `pauseStart = now`,
on resuming accumulate `pauseTime += now - pauseStart`.  (Overlay display
and frame scheduling are presentation.) -/
def togglePause (now : ℚ) (g : Game) : Game :=
  let g1 := { g with isPaused := !g.isPaused }
  if g1.isPaused then { g1 with pauseStart := now }
  else { g1 with pauseTime := g1.pauseTime + (now - g1.pauseStart) }

/-- `resetGame()`: clear the pause state, reset player 1 (and player 2 in
two-player mode; otherwise only deactivate it), zero the session
counters and hit timestamps, and clear the asteroid and heart lists.
The source never touches `gameState.explosions` here.  (The JS also sets
a `player.invincible` property that nothing reads, restarts the score
interval, and redraws — presentation/timers.) -/
def resetGame (g : Game) : Game :=
  let g1 := { g with isPaused := false, pauseTime := 0, pauseStart := 0 }
  let p1r := { g1.player1 with y := config_height / 2, lives := 3, bullets := ([] : List Bullet) }
  let g2 := { g1 with player1 := p1r }
  let p2r := { g2.player2 with
    y := config_height / 2 - 100, lives := 3,
    bullets := ([] : List Bullet), isActive := true }
  let g3 := if g2.isTwoPlayerMode then { g2 with player2 := p2r }
    else { g2 with player2 := { g2.player2 with isActive := false } }
  { g3 with score := 0, gameOver := false, lastAsteroidSpawn := 0,
            frameCount := 0, lastHitTime1 := 0, lastHitTime2 := 0,
            asteroids := [], hearts := [] }

/-! ## Basic lemmas -/

@[simp]
lemma Game.getPlayer_one (g : Game) : g.getPlayer .one = g.player1 := rfl

@[simp]
lemma Game.getPlayer_two (g : Game) : g.getPlayer .two = g.player2 := rfl

@[simp]
lemma Game.getLastHitTime_one (g : Game) : g.getLastHitTime .one = g.lastHitTime1 := rfl

@[simp]
lemma Game.getLastHitTime_two (g : Game) : g.getLastHitTime .two = g.lastHitTime2 := rfl

@[simp]
lemma Game.setPlayer_one (g : Game) (p : Player) :
    g.setPlayer .one p = { g with player1 := p } := rfl

@[simp]
lemma Game.setPlayer_two (g : Game) (p : Player) :
    g.setPlayer .two p = { g with player2 := p } := rfl

@[simp]
lemma Game.setLastHitTime_one (g : Game) (t : ℚ) :
    g.setLastHitTime .one t = { g with lastHitTime1 := t } := rfl

@[simp]
lemma Game.setLastHitTime_two (g : Game) (t : ℚ) :
    g.setLastHitTime .two t = { g with lastHitTime2 := t } := rfl

/-! ## Concrete sessions used as test inputs -/

/-- No movement key held. -/
def keysNone : Keys := ⟨false, false, false, false⟩

/-- A fixed random draw (heart trial fails: `1 < 0.3` is false). -/
def rnd0 : TickRand := ⟨0, 0, 0, 1, 0, 0⟩

/-! ## C4: reset state -/

/-- A two-player session with one active explosion and some live state,
about to be reset. -/
def gExpl : Game := { initialGame with
  score := 42, frameCount := 17, lastAsteroidSpawn := 5,
  lastHitTime1 := 3, lastHitTime2 := 4,
  explosions := [{ x := 5, y := 6, size := 10, startTime := 0 }] }

/-- C4 counterexample: `resetGame` leaves the explosion list untouched, so
a session reset while an explosion is active is not in the exact initial
state (its explosion list is not empty). -/
theorem c4_counterexample :
    gExpl.isTwoPlayerMode = true ∧ (resetGame gExpl).explosions ≠ [] := by
  constructor
  · rfl
  · norm_num [resetGame, gExpl, initialGame, player1Init, player2Init]

/-- C4 (amended): after reset in two-player mode, ship positions are at the
configured defaults, both ships have 3 lives and empty bullet lists, the
asteroid and heart lists are empty, score and frame counter are 0 and both
hit timestamps are cleared — but the explosion list is left exactly as it
was, not cleared. -/
theorem c4_reset_state (g : Game) (h : g.isTwoPlayerMode = true) :
    (resetGame g).player1.y = config_height / 2 ∧
    (resetGame g).player1.lives = 3 ∧
    (resetGame g).player1.bullets = [] ∧
    (resetGame g).player2.y = config_height / 2 - 100 ∧
    (resetGame g).player2.lives = 3 ∧
    (resetGame g).player2.bullets = [] ∧
    (resetGame g).asteroids = [] ∧
    (resetGame g).hearts = [] ∧
    (resetGame g).score = 0 ∧
    (resetGame g).frameCount = 0 ∧
    (resetGame g).lastHitTime1 = 0 ∧
    (resetGame g).lastHitTime2 = 0 ∧
    (resetGame g).isPaused = false ∧
    (resetGame g).explosions = g.explosions := by
  simp [resetGame, h]

/-- Witness for `c4_reset_state` at the concrete session `gExpl`. -/
theorem c4_reset_state_witness :
    (resetGame gExpl).player1.y = config_height / 2 ∧
    (resetGame gExpl).player1.lives = 3 ∧
    (resetGame gExpl).player1.bullets = [] ∧
    (resetGame gExpl).player2.y = config_height / 2 - 100 ∧
    (resetGame gExpl).player2.lives = 3 ∧
    (resetGame gExpl).player2.bullets = [] ∧
    (resetGame gExpl).asteroids = [] ∧
    (resetGame gExpl).hearts = [] ∧
    (resetGame gExpl).score = 0 ∧
    (resetGame gExpl).frameCount = 0 ∧
    (resetGame gExpl).lastHitTime1 = 0 ∧
    (resetGame gExpl).lastHitTime2 = 0 ∧
    (resetGame gExpl).isPaused = false ∧
    (resetGame gExpl).explosions = gExpl.explosions :=
  c4_reset_state gExpl rfl

/-! ## C7: game-over condition -/

/-- C7: the game-over flag after `checkGameOver` is set iff it was already
set or the terminal condition holds — both ships dead in two-player mode,
ship 1 dead in single-player mode — assuming lives are non-negative (they
are clamped at 0) and that player 2 is active whenever the session is in
two-player mode (which `resetGame` establishes). -/
theorem c7_gameOver_iff (g : Game)
    (h1 : 0 ≤ g.player1.lives) (h2 : 0 ≤ g.player2.lives)
    (hAct : g.isTwoPlayerMode = true → g.player2.isActive = true) :
    (checkGameOver g).gameOver =
      (g.gameOver ||
        (if g.isTwoPlayerMode = true then
          decide (g.player1.lives = 0) && decide (g.player2.lives = 0)
        else decide (g.player1.lives = 0))) := by
  have e1 : decide (g.player1.lives ≤ 0) = decide (g.player1.lives = 0) := by
    simp only [decide_eq_decide]; omega
  have e2 : decide (g.player2.lives ≤ 0) = decide (g.player2.lives = 0) := by
    simp only [decide_eq_decide]; omega
  have key : (checkGameOver g).gameOver =
      (g.gameOver ||
        ((g.isTwoPlayerMode && decide (g.player1.lives ≤ 0) &&
           (!g.player2.isActive || decide (g.player2.lives ≤ 0))) ||
         (!g.isTwoPlayerMode && decide (g.player1.lives ≤ 0)))) := by
    unfold checkGameOver
    simp only []
    split <;> rename_i hcond <;> simp_all
  rw [key]
  cases hm : g.isTwoPlayerMode with
  | false => simp [hm, e1]
  | true => simp [hm, hAct hm, e1, e2]

/-- Two-player session, player 1 dead at 0 lives, player 2 alive at 2. -/
def gBoth : Game := { initialGame with
  player1 := { player1Init with lives := 0 },
  player2 := { player2Init with lives := 2 } }

/-- Witness for `c7_gameOver_iff`: player 1 at 0 lives and player 2 at 2
lives in two-player mode does not set the flag; with player 2 also at 0 it
does. -/
theorem c7_gameOver_iff_witness :
    (checkGameOver gBoth).gameOver = false ∧
    (checkGameOver { gBoth with
      player2 := { gBoth.player2 with lives := 0 } }).gameOver = true := by
  constructor
  · have h := c7_gameOver_iff gBoth (by decide) (by decide) (by decide)
    rw [h]; rfl
  · have h := c7_gameOver_iff
      { gBoth with player2 := { gBoth.player2 with lives := 0 } }
      (by decide) (by decide) (by decide)
    rw [h]; rfl

/-! ## C8: vertical clamping -/

/-- C8: the movement guard checks `y < config.height - height` before
adding the full speed, so a ship at `y = 569` (inside the claimed range
`[0, 570]`) holding the down key moves to `y = 572`, outside the range:
vertical movement is not hard-clamped at the field bounds.  (The state is
reachable: player 2 starts at `y = 200` and holding down for 123 ticks
reaches `200 + 123·3 = 569`.) -/
theorem c8_clamp_overshoot :
    (updatePlayer false true { player2Init with y := 569 }).y = 572 ∧
    ¬((572 : ℚ) ≤ config_height - 30) := by
  constructor
  · norm_num [updatePlayer, player2Init, config_height, config_playerSpeed]
  · norm_num [config_height]

/-! ## C2: invincibility vs. pause -/

lemma checkGameOver_pauseTime (p1 p2 : Player) (as : List Asteroid) (hs : List Heart)
    (sc : ℤ) (go ip : Bool) (la fc : ℤ) (t1 t2 s ps : ℚ) (mode : Bool)
    (ex : List Explosion) (t : ℚ) :
    checkGameOver ⟨p1, p2, as, hs, sc, go, ip, la, fc, t1, t2, t, ps, mode, ex⟩ =
      { checkGameOver ⟨p1, p2, as, hs, sc, go, ip, la, fc, t1, t2, s, ps, mode, ex⟩ with
        pauseTime := t } := by
  unfold checkGameOver
  simp only []
  split <;> rfl

lemma checkPlayerCollision_pauseTime (now t : ℚ) (g : Game) (pid : PlayerId) :
    checkPlayerCollision now { g with pauseTime := t } pid =
      { checkPlayerCollision now g pid with pauseTime := t } := by
  obtain ⟨p1, p2, as, hs, sc, go, ip, la, fc, t1, t2, pt, ps, mode, ex⟩ := g
  cases pid <;>
    (unfold checkPlayerCollision
     simp only [Game.getPlayer_one, Game.getPlayer_two, Game.getLastHitTime_one,
       Game.getLastHitTime_two, Game.setPlayer_one, Game.setPlayer_two,
       Game.setLastHitTime_one, Game.setLastHitTime_two]
     split <;> try rfl)
  all_goals
    split <;> try rfl
  all_goals
    rename_i hfind
    split <;> rename_i ia hfind2
  any_goals rfl
  all_goals
    split <;> first
      | rfl
      | apply checkGameOver_pauseTime

/-- A session ready to demonstrate the pause bug: player 1 was hit at
time 0 (`lastHitTime1 = 0`), a fully overlapping asteroid is present. -/
def gHitReady : Game := { initialGame with
  asteroids := [{ x := 100, y := 300, width := 40, height := 40, speed := 1 }] }

/-- `gHitReady` paused at t=100 and resumed at t=2100 (2000 ms paused). -/
def gResumed : Game := togglePause 2100 (togglePause 100 gHitReady)

/-- C2: the invincibility test `now - lastHitTime < 2000` never consults
the accumulated `pauseTime` (first conjunct: the whole collision check is
invariant under changing `pauseTime`), so after being hit at t=0, pausing
from t=100 to t=2100 and overlapping an asteroid at t=2200 — only 200 ms
of unpaused time after the hit — the ship loses a life (lives 3 to 2),
although the claimed pause-corrected window would still protect it. -/
theorem c2_invincibility_ignores_pause :
    (∀ (now t : ℚ) (g : Game) (pid : PlayerId),
        checkPlayerCollision now { g with pauseTime := t } pid =
          { checkPlayerCollision now g pid with pauseTime := t }) ∧
    gResumed.pauseTime = 2000 ∧
    gResumed.lastHitTime1 = 0 ∧
    (2200 : ℚ) - gResumed.lastHitTime1 - gResumed.pauseTime < config_invincibilityDuration ∧
    gResumed.player1.lives = 3 ∧
    (checkPlayerCollision 2200 gResumed PlayerId.one).player1.lives = 2 := by
  refine ⟨fun now t g pid => checkPlayerCollision_pauseTime now t g pid, ?_, ?_, ?_, ?_, ?_⟩
  · norm_num [gResumed, togglePause, gHitReady, initialGame, player1Init, player2Init]
  · norm_num [gResumed, togglePause, gHitReady, initialGame, player1Init, player2Init]
  · norm_num [gResumed, togglePause, gHitReady, initialGame, player1Init, player2Init,
      config_invincibilityDuration]
  · norm_num [gResumed, togglePause, gHitReady, initialGame, player1Init, player2Init]
  · norm_num [gResumed, togglePause, checkPlayerCollision, checkGameOver, findCollisionRev,
      Rect.overlap, Player.toRect, Asteroid.toRect, Game.getPlayer, Game.setPlayer,
      Game.getLastHitTime, Game.setLastHitTime, gHitReady, initialGame, player1Init,
      player2Init, config_invincibilityDuration, config_height,
      List.enum, List.enumFrom, List.find?, List.eraseIdx]

/-! ## C1 and C5: bullet-asteroid matching and scoring -/

/-- The number of overlapping (bullet, asteroid) pairs. -/
def pairCount (bs : List Bullet) (as : List Asteroid) : ℕ :=
  (bs.map fun b => as.countP fun a => b.toRect.overlap a.toRect).sum

lemma scanStep_scoreGain (now : ℚ) (bi : ℕ) (b : Bullet) (acc : ScanResult)
    (aa : ℕ × Asteroid) :
    (scanStep now bi b acc aa).scoreGain =
      acc.scoreGain + (if b.toRect.overlap aa.2.toRect then 10 else 0) := by
  unfold scanStep
  simp only []
  split
  · split <;> simp
  · simp

lemma scanStep_bulletsToRemove (now : ℚ) (bi : ℕ) (b : Bullet) (acc : ScanResult)
    (aa : ℕ × Asteroid) :
    (scanStep now bi b acc aa).bulletsToRemove =
      acc.bulletsToRemove ++ (if b.toRect.overlap aa.2.toRect then [bi] else []) := by
  unfold scanStep
  simp only []
  split
  · split <;> simp
  · simp

lemma scanStep_mem_asteroidsToRemove (now : ℚ) (bi : ℕ) (b : Bullet)
    (acc : ScanResult) (aa : ℕ × Asteroid) (ai : ℕ) :
    ai ∈ (scanStep now bi b acc aa).asteroidsToRemove ↔
      ai ∈ acc.asteroidsToRemove ∨
        (b.toRect.overlap aa.2.toRect = true ∧ ai = aa.1) := by
  unfold scanStep
  simp only []
  split <;> rename_i hov
  · split <;> rename_i hc
    · simp only [hov, true_and]
      constructor
      · exact fun h => Or.inl h
      · rintro (h | rfl)
        · exact h
        · exact List.elem_iff.mp hc
    · simp [hov]
  · simp [hov]

lemma scanStep_nodup (now : ℚ) (bi : ℕ) (b : Bullet) (acc : ScanResult)
    (aa : ℕ × Asteroid) (h : acc.asteroidsToRemove.Nodup) :
    (scanStep now bi b acc aa).asteroidsToRemove.Nodup := by
  unfold scanStep
  simp only []
  split
  · split <;> rename_i hc
    · exact h
    · have hnm : aa.1 ∉ acc.asteroidsToRemove := fun hm => hc (List.elem_iff.mpr hm)
      simp [List.nodup_append, h, hnm]
  · exact h

lemma scanAsteroids_scoreGain (now : ℚ) (bi : ℕ) (b : Bullet) :
    ∀ (l : List Asteroid) (k : ℕ) (acc : ScanResult),
      (scanAsteroids now bi b k l acc).scoreGain =
        acc.scoreGain + 10 * (l.countP fun a => b.toRect.overlap a.toRect : ℕ)
  | [], k, acc => by simp [scanAsteroids]
  | a :: l, k, acc => by
      rw [scanAsteroids, scanAsteroids_scoreGain now bi b l (k + 1),
        scanStep_scoreGain, List.countP_cons]
      split <;> (push_cast; ring)

lemma scanAsteroids_bulletsToRemove_length (now : ℚ) (bi : ℕ) (b : Bullet) :
    ∀ (l : List Asteroid) (k : ℕ) (acc : ScanResult),
      (scanAsteroids now bi b k l acc).bulletsToRemove.length =
        acc.bulletsToRemove.length + (l.countP fun a => b.toRect.overlap a.toRect)
  | [], k, acc => by simp [scanAsteroids]
  | a :: l, k, acc => by
      rw [scanAsteroids, scanAsteroids_bulletsToRemove_length now bi b l (k + 1),
        scanStep_bulletsToRemove, List.countP_cons]
      split <;> simp [List.length_append] <;> omega

lemma scanAsteroids_mem_asteroidsToRemove (now : ℚ) (bi : ℕ) (b : Bullet) :
    ∀ (l : List Asteroid) (k : ℕ) (acc : ScanResult) (ai : ℕ),
      ai ∈ (scanAsteroids now bi b k l acc).asteroidsToRemove ↔
        ai ∈ acc.asteroidsToRemove ∨
          ∃ j : ℕ, ∃ a : Asteroid, l[j]? = some a ∧ ai = k + j ∧
            b.toRect.overlap a.toRect = true
  | [], k, acc, ai => by simp [scanAsteroids]
  | a :: l, k, acc, ai => by
      rw [scanAsteroids, scanAsteroids_mem_asteroidsToRemove now bi b l (k + 1),
        scanStep_mem_asteroidsToRemove]
      constructor
      · rintro ((h | ⟨hov, rfl⟩) | ⟨j, a2, hj, rfl, hov⟩)
        · exact Or.inl h
        · exact Or.inr ⟨0, a, by simp, by omega, hov⟩
        · exact Or.inr ⟨j + 1, a2, by simpa using hj, by omega, hov⟩
      · rintro (h | ⟨j, a2, hj, rfl, hov⟩)
        · exact Or.inl (Or.inl h)
        · cases j with
          | zero =>
              simp only [List.getElem?_cons_zero, Option.some.injEq] at hj
              subst hj
              exact Or.inl (Or.inr ⟨hov, by omega⟩)
          | succ j2 =>
              simp only [List.getElem?_cons_succ] at hj
              exact Or.inr ⟨j2, a2, hj, by omega, hov⟩

lemma scanAsteroids_nodup (now : ℚ) (bi : ℕ) (b : Bullet) :
    ∀ (l : List Asteroid) (k : ℕ) (acc : ScanResult),
      acc.asteroidsToRemove.Nodup →
      (scanAsteroids now bi b k l acc).asteroidsToRemove.Nodup
  | [], k, acc, h => by simpa [scanAsteroids] using h
  | a :: l, k, acc, h => by
      rw [scanAsteroids]
      exact scanAsteroids_nodup now bi b l (k + 1) _ (scanStep_nodup now bi b acc (k, a) h)

lemma scanBullets_scoreGain (now : ℚ) (as : List Asteroid) :
    ∀ (bs : List Bullet) (k : ℕ) (acc : ScanResult),
      (scanBullets now as k bs acc).scoreGain =
        acc.scoreGain + 10 * (pairCount bs as : ℕ)
  | [], k, acc => by simp [scanBullets, pairCount]
  | b :: bs, k, acc => by
      rw [scanBullets, scanBullets_scoreGain now as bs (k + 1),
        scanAsteroids_scoreGain]
      simp only [pairCount, List.map_cons, List.sum_cons]
      push_cast
      ring

lemma scanBullets_bulletsToRemove_length (now : ℚ) (as : List Asteroid) :
    ∀ (bs : List Bullet) (k : ℕ) (acc : ScanResult),
      (scanBullets now as k bs acc).bulletsToRemove.length =
        acc.bulletsToRemove.length + pairCount bs as
  | [], k, acc => by simp [scanBullets, pairCount]
  | b :: bs, k, acc => by
      rw [scanBullets, scanBullets_bulletsToRemove_length now as bs (k + 1),
        scanAsteroids_bulletsToRemove_length]
      simp only [pairCount, List.map_cons, List.sum_cons]
      omega

lemma scanBullets_mem_asteroidsToRemove (now : ℚ) (as : List Asteroid) :
    ∀ (bs : List Bullet) (k : ℕ) (acc : ScanResult) (ai : ℕ),
      ai ∈ (scanBullets now as k bs acc).asteroidsToRemove ↔
        ai ∈ acc.asteroidsToRemove ∨
          ∃ b ∈ bs, ∃ a : Asteroid, as[ai]? = some a ∧
            b.toRect.overlap a.toRect = true
  | [], k, acc, ai => by simp [scanBullets]
  | b :: bs, k, acc, ai => by
      rw [scanBullets, scanBullets_mem_asteroidsToRemove now as bs (k + 1),
        scanAsteroids_mem_asteroidsToRemove]
      constructor
      · rintro ((h | ⟨j, a, hj, rfl, hov⟩) | ⟨b2, hb, a, ha, hov⟩)
        · exact Or.inl h
        · exact Or.inr ⟨b, List.mem_cons_self b bs, a, by simpa using hj, hov⟩
        · exact Or.inr ⟨b2, List.mem_cons_of_mem b hb, a, ha, hov⟩
      · rintro (h | ⟨b2, hb, a, ha, hov⟩)
        · exact Or.inl (Or.inl h)
        · rcases List.mem_cons.mp hb with rfl | hb2
          · exact Or.inl (Or.inr ⟨ai, a, ha, by omega, hov⟩)
          · exact Or.inr ⟨b2, hb2, a, ha, hov⟩

lemma scanBullets_nodup (now : ℚ) (as : List Asteroid) :
    ∀ (bs : List Bullet) (k : ℕ) (acc : ScanResult),
      acc.asteroidsToRemove.Nodup →
      (scanBullets now as k bs acc).asteroidsToRemove.Nodup
  | [], _, _, h => h
  | b :: bs, k, acc, h => by
      rw [scanBullets]
      exact scanBullets_nodup now as bs (k + 1) _
        (scanAsteroids_nodup now k b as 0 acc h)

lemma bulletScan_scoreGain (now : ℚ) (bs : List Bullet) (as : List Asteroid) :
    (bulletScan now bs as).scoreGain = 10 * (pairCount bs as : ℕ) := by
  rw [bulletScan, scanBullets_scoreGain]
  simp

lemma bulletScan_nodup (now : ℚ) (bs : List Bullet) (as : List Asteroid) :
    (bulletScan now bs as).asteroidsToRemove.Nodup :=
  scanBullets_nodup now as bs 0 _ List.nodup_nil

lemma bulletScan_mem (now : ℚ) (bs : List Bullet) (as : List Asteroid) (ai : ℕ) :
    ai ∈ (bulletScan now bs as).asteroidsToRemove ↔
      ∃ b ∈ bs, ∃ a : Asteroid, as[ai]? = some a ∧
        b.toRect.overlap a.toRect = true := by
  rw [bulletScan, scanBullets_mem_asteroidsToRemove]
  simp

lemma bulletScan_bulletsToRemove_length (now : ℚ) (bs : List Bullet)
    (as : List Asteroid) :
    (bulletScan now bs as).bulletsToRemove.length = pairCount bs as := by
  rw [bulletScan, scanBullets_bulletsToRemove_length]
  simp

/-- C1 (amended): within one `checkBulletCollisions` tick a bullet does
**not** stop after its first match — `bulletsToRemove` receives one entry
per overlapping (bullet, asteroid) pair, so a bullet overlapping several
asteroids destroys all of them; an asteroid, however, is marked for
removal exactly once (the marks are duplicate-free), namely iff some
bullet overlaps it. -/
theorem c1_bullet_marking (now : ℚ) (bs : List Bullet) (as : List Asteroid) :
    (bulletScan now bs as).asteroidsToRemove.Nodup ∧
    (∀ ai : ℕ, ai ∈ (bulletScan now bs as).asteroidsToRemove ↔
      ∃ b ∈ bs, ∃ a : Asteroid, as[ai]? = some a ∧
        b.toRect.overlap a.toRect = true) ∧
    (bulletScan now bs as).bulletsToRemove.length = pairCount bs as :=
  ⟨bulletScan_nodup now bs as, fun ai => bulletScan_mem now bs as ai,
    bulletScan_bulletsToRemove_length now bs as⟩

/-- A wide bullet overlapping both test asteroids. -/
def bulletWide : Bullet := { x := 0, y := 0, width := 100, height := 100, speed := 7 }

def asteroidA : Asteroid := { x := 10, y := 10, width := 20, height := 20, speed := 1 }

def asteroidB : Asteroid := { x := 50, y := 50, width := 20, height := 20, speed := 1 }

/-- One bullet of player 1 overlapping two asteroids at once. -/
def gOneBulletTwoAst : Game := { initialGame with
  player1 := { player1Init with bullets := [bulletWide] },
  asteroids := [asteroidA, asteroidB] }

/-- C1 counterexample: a single bullet overlapping two asteroids destroys
**both** of them in one tick (2 asteroids removed with only 1 bullet in
play), refuting that a bullet stops matching after its first match and
destroys at most one asteroid. -/
theorem c1_counterexample :
    gOneBulletTwoAst.player1.bullets.length = 1 ∧
    gOneBulletTwoAst.asteroids.length = 2 ∧
    (checkBulletCollisions 0 gOneBulletTwoAst PlayerId.one).asteroids = [] ∧
    ¬(gOneBulletTwoAst.asteroids.length -
        (checkBulletCollisions 0 gOneBulletTwoAst PlayerId.one).asteroids.length ≤
      gOneBulletTwoAst.player1.bullets.length) := by
  refine ⟨rfl, rfl, ?_, ?_⟩ <;>
    norm_num [checkBulletCollisions, bulletScan, scanBullets, scanAsteroids, scanStep, mkExplosion,
      spliceEach, sortDesc, insertDesc, Rect.overlap, Bullet.toRect, Asteroid.toRect,
      Game.getPlayer, Game.setPlayer, gOneBulletTwoAst, initialGame, player1Init,
      player2Init, bulletWide, asteroidA, asteroidB, List.enum, List.enumFrom,
      List.foldl, List.eraseIdx, config_height, config_playerSpeed]

/-- Two bullets of player 1 overlapping the same single asteroid. -/
def gTwoBulletsOneAst : Game := { initialGame with
  player1 := { player1Init with bullets := [bulletWide, { bulletWide with y := 5 }] },
  asteroids := [asteroidA] }

/-- C5 counterexample: two bullets overlapping the same asteroid score
+10 **each** (`score` rises by 20) although only one asteroid is
destroyed, refuting that the score increase equals 10 times the number of
asteroids destroyed in the tick. -/
theorem c5_counterexample :
    gTwoBulletsOneAst.score = 0 ∧
    gTwoBulletsOneAst.asteroids.length = 1 ∧
    (checkBulletCollisions 0 gTwoBulletsOneAst PlayerId.one).asteroids = [] ∧
    (checkBulletCollisions 0 gTwoBulletsOneAst PlayerId.one).score = 20 ∧
    (20 : ℤ) ≠ 10 * 1 := by
  refine ⟨rfl, rfl, ?_, ?_, by norm_num⟩ <;>
    norm_num [checkBulletCollisions, bulletScan, scanBullets, scanAsteroids, scanStep, mkExplosion,
      spliceEach, sortDesc, insertDesc, Rect.overlap, Bullet.toRect, Asteroid.toRect,
      Game.getPlayer, Game.setPlayer, gTwoBulletsOneAst, initialGame, player1Init,
      player2Init, bulletWide, asteroidA, List.enum, List.enumFrom,
      List.foldl, List.eraseIdx, config_height, config_playerSpeed]

/-- C5 (amended): `checkBulletCollisions` adds exactly +10 to the session
score per overlapping (bullet, asteroid) pair of the tick — an asteroid
already marked destroyed is still matched again by further overlapping
bullets for +10 each, though its removal mark is recorded only once
(duplicate-free marks), so the score increase is 10 × pairs, not
necessarily 10 × asteroids destroyed. -/
theorem c5_score_per_pair (now : ℚ) (g : Game) (pid : PlayerId) :
    (checkBulletCollisions now g pid).score =
      g.score + 10 * (pairCount (g.getPlayer pid).bullets g.asteroids : ℕ) ∧
    (bulletScan now (g.getPlayer pid).bullets g.asteroids).asteroidsToRemove.Nodup := by
  constructor
  · cases pid <;>
      simp [checkBulletCollisions, bulletScan_scoreGain]
  · exact bulletScan_nodup now _ _

/-! ## C6: ship-asteroid hit -/

@[simp]
lemma checkGameOver_player1 (g : Game) : (checkGameOver g).player1 = g.player1 := by
  unfold checkGameOver; simp only []; split <;> rfl

@[simp]
lemma checkGameOver_player2 (g : Game) : (checkGameOver g).player2 = g.player2 := by
  unfold checkGameOver; simp only []; split <;> rfl

@[simp]
lemma checkGameOver_asteroids (g : Game) : (checkGameOver g).asteroids = g.asteroids := by
  unfold checkGameOver; simp only []; split <;> rfl

@[simp]
lemma checkGameOver_hearts (g : Game) : (checkGameOver g).hearts = g.hearts := by
  unfold checkGameOver; simp only []; split <;> rfl

@[simp]
lemma checkGameOver_score (g : Game) : (checkGameOver g).score = g.score := by
  unfold checkGameOver; simp only []; split <;> rfl

@[simp]
lemma checkGameOver_lastHitTime1 (g : Game) :
    (checkGameOver g).lastHitTime1 = g.lastHitTime1 := by
  unfold checkGameOver; simp only []; split <;> rfl

@[simp]
lemma checkGameOver_lastHitTime2 (g : Game) :
    (checkGameOver g).lastHitTime2 = g.lastHitTime2 := by
  unfold checkGameOver; simp only []; split <;> rfl

/-- C6: for every ship (`pid`) with lives and not invincible
(`now - lastHitTime ≥ 2000`), when the backward scan finds an overlapping
asteroid (`findCollisionRev = some ia`), `checkPlayerCollision` decrements
that ship's lives by exactly 1, records its hit timestamp `now` (starting
the invincibility window), removes exactly that one asteroid, and stops —
the asteroid count drops by exactly one, so the ship takes at most one hit
in the tick. -/
theorem c6_player_hit (now : ℚ) (g : Game) (pid : PlayerId) (ia : ℕ × Asteroid)
    (hLives : 0 < (g.getPlayer pid).lives)
    (hInv : ¬(now - g.getLastHitTime pid < config_invincibilityDuration))
    (hFind : findCollisionRev (g.getPlayer pid) g.asteroids = some ia) :
    ((checkPlayerCollision now g pid).getPlayer pid).lives =
        (g.getPlayer pid).lives - 1 ∧
    (checkPlayerCollision now g pid).getLastHitTime pid = now ∧
    (checkPlayerCollision now g pid).asteroids = g.asteroids.eraseIdx ia.1 ∧
    (checkPlayerCollision now g pid).asteroids.length + 1 = g.asteroids.length ∧
    (g.getPlayer pid).toRect.overlap ia.2.toRect = true := by
  have hov : (g.getPlayer pid).toRect.overlap ia.2.toRect = true := by
    have := List.find?_some hFind
    simpa using this
  have hmem : ia ∈ g.asteroids.enum :=
    List.mem_reverse.mp (List.mem_of_find?_eq_some hFind)
  have hget : g.asteroids[ia.1]? = some ia.2 := List.mem_enum_iff_getElem?.mp hmem
  have hlt : ia.1 < g.asteroids.length := by
    rcases List.getElem?_eq_some.mp hget with ⟨h, _⟩
    exact h
  have hlen : (g.asteroids.eraseIdx ia.1).length + 1 = g.asteroids.length :=
    List.length_eraseIdx_add_one hlt
  cases pid
  · simp only [Game.getPlayer_one, Game.getLastHitTime_one] at hLives hInv hFind hov ⊢
    have h1 : decide (g.player1.lives ≤ 0) = false := by
      simp only [decide_eq_false_iff_not]; omega
    have h2 : decide (now - g.lastHitTime1 < config_invincibilityDuration) = false := by
      simp only [decide_eq_false_iff_not]; exact hInv
    unfold checkPlayerCollision
    simp only [Game.getPlayer_one, Game.getLastHitTime_one, Game.setPlayer_one,
      Game.setLastHitTime_one, h1, h2, Bool.false_eq_true, if_false, hFind]
    split <;> rename_i hdead
    · have : g.player1.lives = 1 := by
        simp only [decide_eq_true_eq] at hdead
        omega
      refine ⟨?_, ?_, ?_, ?_, hov⟩ <;>
        simp [Game.getPlayer_one, Game.getLastHitTime_one, checkGameOver_player1,
          checkGameOver_lastHitTime1, checkGameOver_asteroids, this, hlen]
    · exact ⟨rfl, rfl, rfl, hlen, hov⟩
  · simp only [Game.getPlayer_two, Game.getLastHitTime_two] at hLives hInv hFind hov ⊢
    have h1 : decide (g.player2.lives ≤ 0) = false := by
      simp only [decide_eq_false_iff_not]; omega
    have h2 : decide (now - g.lastHitTime2 < config_invincibilityDuration) = false := by
      simp only [decide_eq_false_iff_not]; exact hInv
    unfold checkPlayerCollision
    simp only [Game.getPlayer_two, Game.getLastHitTime_two, Game.setPlayer_two,
      Game.setLastHitTime_two, h1, h2, Bool.false_eq_true, if_false, hFind]
    split <;> rename_i hdead
    · have : g.player2.lives = 1 := by
        simp only [decide_eq_true_eq] at hdead
        omega
      refine ⟨?_, ?_, ?_, ?_, hov⟩ <;>
        simp [Game.getPlayer_two, Game.getLastHitTime_two, checkGameOver_player2,
          checkGameOver_lastHitTime2, checkGameOver_asteroids, this, hlen]
    · exact ⟨rfl, rfl, rfl, hlen, hov⟩

/-- A fresh two-player session with a single asteroid fully overlapping
ship 1 (the spec's scenario: ship at (100, 300), asteroid at
(100, 300, 40, 40)). -/
def gScenarioHit : Game := { initialGame with
  asteroids := [{ x := 100, y := 300, width := 40, height := 40, speed := 1 }] }

/-- The same scenario aimed at ship 2 (at (100, 200)): a single asteroid
at (100, 200, 40, 40) fully overlapping it. -/
def gScenarioHit2 : Game := { initialGame with
  asteroids := [{ x := 100, y := 200, width := 40, height := 40, speed := 1 }] }

/-- Witness for `c6_player_hit` at the spec's concrete scenario for both
ships, at `now = 5000` (no invincibility: the hit timestamps are 0):
lives 3 to 2, the asteroid removed, the hit timestamp set. -/
theorem c6_player_hit_witness :
    ((checkPlayerCollision 5000 gScenarioHit .one).getPlayer .one).lives =
        (gScenarioHit.getPlayer .one).lives - 1 ∧
    (checkPlayerCollision 5000 gScenarioHit .one).getLastHitTime .one = 5000 ∧
    (checkPlayerCollision 5000 gScenarioHit .one).asteroids =
        gScenarioHit.asteroids.eraseIdx 0 ∧
    ((checkPlayerCollision 5000 gScenarioHit2 .two).getPlayer .two).lives =
        (gScenarioHit2.getPlayer .two).lives - 1 ∧
    (checkPlayerCollision 5000 gScenarioHit2 .two).getLastHitTime .two = 5000 ∧
    (checkPlayerCollision 5000 gScenarioHit2 .two).asteroids =
        gScenarioHit2.asteroids.eraseIdx 0 := by
  have h1 := c6_player_hit 5000 gScenarioHit .one
    (0, { x := 100, y := 300, width := 40, height := 40, speed := 1 })
    (by norm_num [gScenarioHit, initialGame, player1Init, Game.getPlayer])
    (by norm_num [gScenarioHit, initialGame, Game.getLastHitTime,
      config_invincibilityDuration])
    (by norm_num [findCollisionRev, gScenarioHit, initialGame, player1Init,
      player2Init, Rect.overlap, Player.toRect, Asteroid.toRect, config_height,
      config_playerSpeed, List.enum, List.enumFrom, List.find?, Game.getPlayer])
  have h2 := c6_player_hit 5000 gScenarioHit2 .two
    (0, { x := 100, y := 200, width := 40, height := 40, speed := 1 })
    (by norm_num [gScenarioHit2, initialGame, player2Init, Game.getPlayer])
    (by norm_num [gScenarioHit2, initialGame, Game.getLastHitTime,
      config_invincibilityDuration])
    (by norm_num [findCollisionRev, gScenarioHit2, initialGame, player1Init,
      player2Init, Rect.overlap, Player.toRect, Asteroid.toRect, config_height,
      config_playerSpeed, List.enum, List.enumFrom, List.find?, Game.getPlayer])
  exact ⟨h1.1, h1.2.1, h1.2.2.1, h2.1, h2.2.1, h2.2.2.1⟩

/-! ## C3: dead ships -/

@[simp]
lemma updateBullets_y (p : Player) : (updateBullets p).y = p.y := rfl

@[simp]
lemma updateBullets_lives (p : Player) : (updateBullets p).lives = p.lives := rfl

@[simp]
lemma checkBulletCollisions_player1_y (now : ℚ) (g : Game) (pid : PlayerId) :
    (checkBulletCollisions now g pid).player1.y = g.player1.y := by
  cases pid <;> rfl

@[simp]
lemma checkBulletCollisions_player2_y (now : ℚ) (g : Game) (pid : PlayerId) :
    (checkBulletCollisions now g pid).player2.y = g.player2.y := by
  cases pid <;> rfl

@[simp]
lemma checkHeartCollection_fst_y (p : Player) (hs : List Heart) :
    (checkHeartCollection p hs).1.y = p.y := rfl

@[simp]
lemma checkPlayerCollision_player1_y (now : ℚ) (g : Game) (pid : PlayerId) :
    (checkPlayerCollision now g pid).player1.y = g.player1.y := by
  cases pid <;>
    (unfold checkPlayerCollision
     simp only [Game.getPlayer_one, Game.getPlayer_two, Game.getLastHitTime_one,
       Game.getLastHitTime_two, Game.setPlayer_one, Game.setPlayer_two,
       Game.setLastHitTime_one, Game.setLastHitTime_two]
     split
     · rfl
     · split
       · rfl
       · split
         · rfl
         · split <;> simp [checkGameOver_player1])

@[simp]
lemma checkPlayerCollision_player2_y (now : ℚ) (g : Game) (pid : PlayerId) :
    (checkPlayerCollision now g pid).player2.y = g.player2.y := by
  cases pid <;>
    (unfold checkPlayerCollision
     simp only [Game.getPlayer_one, Game.getPlayer_two, Game.getLastHitTime_one,
       Game.getLastHitTime_two, Game.setPlayer_one, Game.setPlayer_two,
       Game.setLastHitTime_one, Game.setLastHitTime_two]
     split
     · rfl
     · split
       · rfl
       · split
         · rfl
         · split <;> simp [checkGameOver_player2])

lemma checkCollisions_player1_y (now : ℚ) (g : Game) :
    (checkCollisions now g).player1.y = g.player1.y := by
  unfold checkCollisions
  simp only []
  split <;> (try split) <;> (try split) <;>
    simp [checkPlayerCollision_player1_y, checkBulletCollisions_player1_y,
      checkHeartCollection_fst_y]

lemma checkCollisions_player2_y (now : ℚ) (g : Game) :
    (checkCollisions now g).player2.y = g.player2.y := by
  unfold checkCollisions
  simp only []
  split <;> (try split) <;> (try split) <;>
    simp [checkPlayerCollision_player2_y, checkBulletCollisions_player2_y,
      checkHeartCollection_fst_y]

/-- `checkPlayerCollision` is the identity on a dead ship (the `if
(player.lives <= 0) return` guard). -/
lemma checkPlayerCollision_dead (now : ℚ) (g : Game) (pid : PlayerId)
    (h : (g.getPlayer pid).lives ≤ 0) :
    checkPlayerCollision now g pid = g := by
  unfold checkPlayerCollision
  have hd : decide ((g.getPlayer pid).lives ≤ 0) = true := by simpa using h
  simp only [hd, if_true]

lemma movePhase_player1_dead (keys : Keys) (g : Game) (h : g.player1.lives = 0) :
    (movePhase keys g).player1 = g.player1 := by
  unfold movePhase
  simp only []
  have hm : decide (g.player1.lives > 0) = false := by
    simp only [decide_eq_false_iff_not]; omega
  simp only [hm, Bool.false_eq_true, if_false]
  split <;> rfl

lemma movePhase_player2_dead (keys : Keys) (g : Game) (h : g.player2.lives = 0) :
    (movePhase keys g).player2 = g.player2 := by
  unfold movePhase
  simp only []
  have hm : decide (g.player2.lives > 0) = false := by
    simp only [decide_eq_false_iff_not]; omega
  split <;> simp [hm]

lemma spawnPhase_player1 (rnd : TickRand) (g : Game) :
    (spawnPhase rnd g).player1 = g.player1 := by
  unfold spawnPhase
  simp only []
  repeat' split
  all_goals rfl

lemma spawnPhase_player2 (rnd : TickRand) (g : Game) :
    (spawnPhase rnd g).player2 = g.player2 := by
  unfold spawnPhase
  simp only []
  repeat' split
  all_goals rfl

lemma motionPhase_player1 (g : Game) :
    (motionPhase g).player1 = updateBullets g.player1 := by
  unfold motionPhase
  simp only []
  split <;> rfl

lemma motionPhase_player2_y (g : Game) :
    (motionPhase g).player2.y = g.player2.y := by
  unfold motionPhase
  simp only []
  split <;> simp_all [updateBullets_y]

/-- C3 (amended): a ship whose lives have reached 0 does not move in a
tick (its `y` is unchanged by `update`) and the ship-asteroid check
ignores it entirely, but heart collection does **not** exclude it: the
collection scan still adds one life per overlapping heart, so an
overlapping heart revives the ship (lives 0 to 1) and its lives can
change again. -/
theorem c3_dead_ship (now : ℚ) (keys : Keys) (rnd : TickRand) (g : Game)
    (pid : PlayerId) (h : (g.getPlayer pid).lives = 0) :
    ((update now keys rnd g).getPlayer pid).y = (g.getPlayer pid).y ∧
    checkPlayerCollision now g pid = g ∧
    (checkHeartCollection (g.getPlayer pid) g.hearts).1.lives =
      (g.hearts.countP fun hh => (g.getPlayer pid).toRect.overlap hh.toRect) := by
  refine ⟨?_, checkPlayerCollision_dead now g pid (by omega), ?_⟩
  · cases pid with
    | one =>
        simp only [Game.getPlayer_one] at h ⊢
        unfold update
        split
        · rfl
        · rw [checkCollisions_player1_y, motionPhase_player1, updateBullets_y,
            spawnPhase_player1, movePhase_player1_dead keys g h]
    | two =>
        simp only [Game.getPlayer_two] at h ⊢
        unfold update
        split
        · rfl
        · rw [checkCollisions_player2_y, motionPhase_player2_y,
            spawnPhase_player2, movePhase_player2_dead keys g h]
  · simp only [checkHeartCollection, h]
    ring

/-- A single-player session whose ship 1 is dead (lives 0) with a heart
fully overlapping it. -/
def gDeadHeart : Game := { initialGame with
  isTwoPlayerMode := false,
  player1 := { player1Init with lives := 0 },
  hearts := [{ x := 110, y := 300, width := 30, height := 30, speed := 1/2,
               rotation := 0, rotationSpeed := 0 }] }

/-- C3 counterexample: a dead ship (lives 0) still collects an overlapping
heart during a tick — `checkHeartCollection` has no lives guard — so its
lives change from 0 to 1 and the `Dead` state is not terminal. -/
theorem c3_counterexample :
    gDeadHeart.player1.lives = 0 ∧
    (update 0 keysNone rnd0 gDeadHeart).player1.lives = 1 := by
  constructor
  · rfl
  · norm_num [update, movePhase, spawnPhase, motionPhase, checkCollisions,
      checkPlayerCollision, checkBulletCollisions,
      checkHeartCollection, checkGameOver, findCollisionRev, bulletScan, scanBullets,
      scanAsteroids, scanStep, updatePlayer, updateBullets, updateAsteroids,
      updateHearts, spliceEach, sortDesc, Rect.overlap, Player.toRect, Heart.toRect,
      Game.getPlayer, Game.setPlayer, Game.getLastHitTime, Game.setLastHitTime,
      gDeadHeart, initialGame, player1Init, player2Init, keysNone, rnd0,
      config_height, config_playerSpeed, config_heartSpawnRate,
      config_asteroidSpawnRate, config_invincibilityDuration, config_heartSize,
      config_heartSpeed, config_width, List.enum, List.enumFrom, List.foldl,
      List.eraseIdx, List.countP_cons, List.countP_nil, List.find?, List.filter,
      List.map]

/-- Witness for `c3_dead_ship` at the concrete session `gDeadHeart`. -/
theorem c3_dead_ship_witness :
    ((update 0 keysNone rnd0 gDeadHeart).getPlayer .one).y =
        (gDeadHeart.getPlayer .one).y ∧
    checkPlayerCollision 0 gDeadHeart .one = gDeadHeart ∧
    (checkHeartCollection (gDeadHeart.getPlayer .one) gDeadHeart.hearts).1.lives =
      (gDeadHeart.hearts.countP fun hh =>
        (gDeadHeart.getPlayer .one).toRect.overlap hh.toRect) :=
  c3_dead_ship 0 keysNone rnd0 gDeadHeart .one rfl

/-! ## C10: single-player mode does not touch player 2 -/

section SinglePlayerFrame

variable (p1 p2 q : Player) (as : List Asteroid) (hs : List Heart) (sc : ℤ)
  (go ip : Bool) (la fc : ℤ) (t1 t2 pt ps : ℚ) (ex : List Explosion)

lemma checkGameOver_isTwoPlayerMode (g : Game) :
    (checkGameOver g).isTwoPlayerMode = g.isTwoPlayerMode := by
  unfold checkGameOver; simp only []; split <;> rfl

lemma checkPlayerCollision_isTwoPlayerMode (now : ℚ) (g : Game) (pid : PlayerId) :
    (checkPlayerCollision now g pid).isTwoPlayerMode = g.isTwoPlayerMode := by
  cases pid <;>
    (unfold checkPlayerCollision
     simp only [Game.getPlayer_one, Game.getPlayer_two, Game.getLastHitTime_one,
       Game.getLastHitTime_two, Game.setPlayer_one, Game.setPlayer_two,
       Game.setLastHitTime_one, Game.setLastHitTime_two]
     split
     · rfl
     · split
       · rfl
       · split
         · rfl
         · split <;> simp [checkGameOver_isTwoPlayerMode])

lemma checkBulletCollisions_isTwoPlayerMode (now : ℚ) (g : Game) (pid : PlayerId) :
    (checkBulletCollisions now g pid).isTwoPlayerMode = g.isTwoPlayerMode := by
  cases pid <;> rfl

lemma movePhase_isTwoPlayerMode (keys : Keys) (g : Game) :
    (movePhase keys g).isTwoPlayerMode = g.isTwoPlayerMode := by
  unfold movePhase; simp only []
  repeat' split
  all_goals rfl

lemma spawnPhase_isTwoPlayerMode (rnd : TickRand) (g : Game) :
    (spawnPhase rnd g).isTwoPlayerMode = g.isTwoPlayerMode := by
  unfold spawnPhase; simp only []
  repeat' split
  all_goals rfl

lemma motionPhase_isTwoPlayerMode (g : Game) :
    (motionPhase g).isTwoPlayerMode = g.isTwoPlayerMode := by
  unfold motionPhase; simp only []
  repeat' split
  all_goals rfl

lemma checkGameOver_p2f :
    checkGameOver ⟨p1, q, as, hs, sc, go, ip, la, fc, t1, t2, pt, ps, false, ex⟩ =
      { checkGameOver ⟨p1, p2, as, hs, sc, go, ip, la, fc, t1, t2, pt, ps, false, ex⟩ with
        player2 := q } := by
  unfold checkGameOver
  simp only [Bool.false_and, Bool.false_or, Bool.not_false, Bool.true_and]
  split <;> rfl

lemma checkPlayerCollision_one_p2f (now : ℚ) :
    checkPlayerCollision now
        ⟨p1, q, as, hs, sc, go, ip, la, fc, t1, t2, pt, ps, false, ex⟩ .one =
      { checkPlayerCollision now
          ⟨p1, p2, as, hs, sc, go, ip, la, fc, t1, t2, pt, ps, false, ex⟩ .one with
        player2 := q } := by
  unfold checkPlayerCollision
  simp only [Game.getPlayer_one, Game.getLastHitTime_one, Game.setPlayer_one,
    Game.setLastHitTime_one]
  split
  · rfl
  · split
    · rfl
    · split
      · rfl
      · split
        · exact checkGameOver_p2f _ p2 _ _ _ _ _ _ _ _ _ _ _ _ _
        · rfl

lemma checkBulletCollisions_one_p2f (now : ℚ) :
    checkBulletCollisions now
        ⟨p1, q, as, hs, sc, go, ip, la, fc, t1, t2, pt, ps, false, ex⟩ .one =
      { checkBulletCollisions now
          ⟨p1, p2, as, hs, sc, go, ip, la, fc, t1, t2, pt, ps, false, ex⟩ .one with
        player2 := q } := rfl

lemma checkCollisions_p2f (now : ℚ) :
    checkCollisions now ⟨p1, q, as, hs, sc, go, ip, la, fc, t1, t2, pt, ps, false, ex⟩ =
      { checkCollisions now
          ⟨p1, p2, as, hs, sc, go, ip, la, fc, t1, t2, pt, ps, false, ex⟩ with
        player2 := q } := by
  unfold checkCollisions
  dsimp only
  rw [checkPlayerCollision_one_p2f p1 p2 q as hs sc go ip la fc t1 t2 pt ps ex now]
  have hZ := checkPlayerCollision_isTwoPlayerMode now
    (⟨p1, p2, as, hs, sc, go, ip, la, fc, t1, t2, pt, ps, false, ex⟩ : Game) .one
  cases hX : checkPlayerCollision now
      ⟨p1, p2, as, hs, sc, go, ip, la, fc, t1, t2, pt, ps, false, ex⟩ .one with
  | mk a1 a2 aas ahs asc ago aip ala afc at1 at2 apt aps amode aex =>
    rw [hX] at hZ
    replace hZ : amode = false := hZ
    subst hZ
    dsimp only
    simp only [Bool.false_eq_true, if_false]
    rw [checkBulletCollisions_one_p2f a1 a2 q aas ahs asc ago aip ala afc at1 at2
      apt aps aex now]
    have hY := checkBulletCollisions_isTwoPlayerMode now
      (⟨a1, a2, aas, ahs, asc, ago, aip, ala, afc, at1, at2, apt, aps, false, aex⟩ : Game)
      .one
    cases hB : checkBulletCollisions now
        ⟨a1, a2, aas, ahs, asc, ago, aip, ala, afc, at1, at2, apt, aps, false, aex⟩ .one with
    | mk b1 b2 bas bhs bsc bgo bip bla bfc bt1 bt2 bpt bps bmode bex =>
      rw [hB] at hY
      replace hY : bmode = false := hY
      subst hY
      dsimp only
      simp only [Bool.false_eq_true, if_false]

lemma movePhase_p2f (keys : Keys) :
    movePhase keys ⟨p1, q, as, hs, sc, go, ip, la, fc, t1, t2, pt, ps, false, ex⟩ =
      { movePhase keys ⟨p1, p2, as, hs, sc, go, ip, la, fc, t1, t2, pt, ps, false, ex⟩ with
        player2 := q } := by
  unfold movePhase
  simp only []
  split <;> simp

lemma spawnPhase_p2f (rnd : TickRand) :
    spawnPhase rnd ⟨p1, q, as, hs, sc, go, ip, la, fc, t1, t2, pt, ps, false, ex⟩ =
      { spawnPhase rnd ⟨p1, p2, as, hs, sc, go, ip, la, fc, t1, t2, pt, ps, false, ex⟩ with
        player2 := q } := by
  unfold spawnPhase
  simp only []
  repeat' split
  all_goals first
    | rfl
    | simp_all

lemma motionPhase_p2f :
    motionPhase ⟨p1, q, as, hs, sc, go, ip, la, fc, t1, t2, pt, ps, false, ex⟩ =
      { motionPhase ⟨p1, p2, as, hs, sc, go, ip, la, fc, t1, t2, pt, ps, false, ex⟩ with
        player2 := q } := by
  unfold motionPhase
  simp only []
  split <;> simp_all

end SinglePlayerFrame

/-- C10: in single-player mode a tick is completely independent of
player 2's state: replacing player 2 by anything (`q`) before the tick
changes nothing but the carried-along player-2 component (second
conjunct), and in particular the tick leaves player 2's position, lives
and bullet list untouched (first conjunct) — so player 2's bullets never
remove asteroids, collect hearts, or change the score. -/
theorem c10_single_player_frame (now : ℚ) (keys : Keys) (rnd : TickRand)
    (g : Game) (h : g.isTwoPlayerMode = false) :
    (update now keys rnd g).player2 = g.player2 ∧
    ∀ q : Player, update now keys rnd { g with player2 := q } =
      { update now keys rnd g with player2 := q } := by
  have key : ∀ q : Player, update now keys rnd { g with player2 := q } =
      { update now keys rnd g with player2 := q } := by
    intro q
    obtain ⟨p1, p2, as, hs, sc, go, ip, la, fc, t1, t2, pt, ps, mode, ex⟩ := g
    replace h : mode = false := h
    subst h
    unfold update
    dsimp only
    split
    · rfl
    · rw [movePhase_p2f p1 p2 q as hs sc go ip la fc t1 t2 pt ps ex keys]
      have hMove := movePhase_isTwoPlayerMode keys
        (⟨p1, p2, as, hs, sc, go, ip, la, fc, t1, t2, pt, ps, false, ex⟩ : Game)
      cases hM : movePhase keys
          ⟨p1, p2, as, hs, sc, go, ip, la, fc, t1, t2, pt, ps, false, ex⟩ with
      | mk m1 m2 mas mhs msc mgo mip mla mfc mt1 mt2 mpt mps mmode mex =>
        rw [hM] at hMove
        replace hMove : mmode = false := hMove
        subst hMove
        dsimp only
        rw [spawnPhase_p2f m1 m2 q mas mhs msc mgo mip mla mfc mt1 mt2 mpt mps mex rnd]
        have hSpawn := spawnPhase_isTwoPlayerMode rnd
          (⟨m1, m2, mas, mhs, msc, mgo, mip, mla, mfc, mt1, mt2, mpt, mps, false, mex⟩ : Game)
        cases hS : spawnPhase rnd
            ⟨m1, m2, mas, mhs, msc, mgo, mip, mla, mfc, mt1, mt2, mpt, mps, false, mex⟩ with
        | mk s1 s2 sas shs ssc sgo sip sla sfc st1 st2 spt sps smode sex =>
          rw [hS] at hSpawn
          replace hSpawn : smode = false := hSpawn
          subst hSpawn
          dsimp only
          rw [motionPhase_p2f s1 s2 q sas shs ssc sgo sip sla sfc st1 st2 spt sps sex]
          have hMotion := motionPhase_isTwoPlayerMode
            (⟨s1, s2, sas, shs, ssc, sgo, sip, sla, sfc, st1, st2, spt, sps, false, sex⟩ : Game)
          cases hMo : motionPhase
              ⟨s1, s2, sas, shs, ssc, sgo, sip, sla, sfc, st1, st2, spt, sps, false, sex⟩ with
          | mk u1 u2 uas uhs usc ugo uip ula ufc ut1 ut2 upt ups umode uex =>
            rw [hMo] at hMotion
            replace hMotion : umode = false := hMotion
            subst hMotion
            dsimp only
            exact checkCollisions_p2f u1 u2 q uas uhs usc ugo uip ula ufc ut1 ut2 upt ups uex now
  refine ⟨?_, key⟩
  have h2 := key g.player2
  have e : ({ g with player2 := g.player2 } : Game) = g := rfl
  rw [e] at h2
  have h3 := congrArg Game.player2 h2
  simpa using h3

/-- A fresh single-player session. -/
def gSolo : Game := { initialGame with isTwoPlayerMode := false }

/-- Witness for `c10_single_player_frame` at the fresh single-player
session, replacing player 2 by a 9-lives variant. -/
theorem c10_single_player_frame_witness :
    (update 0 keysNone rnd0 gSolo).player2 = gSolo.player2 ∧
    update 0 keysNone rnd0 { gSolo with player2 := { player2Init with lives := 9 } } =
      { update 0 keysNone rnd0 gSolo with
        player2 := { player2Init with lives := 9 } } := by
  have h := c10_single_player_frame 0 keysNone rnd0 gSolo rfl
  exact ⟨h.1, h.2 { player2Init with lives := 9 }⟩

/-! ## C9: first asteroid spawn -/

/-- Iterated ticks: `iterateUpdate nows keys rnds k g` runs `k` ticks from
`g`, the i-th tick using timestamp `nows i` and random draws `rnds i`. -/
def iterateUpdate (nows : ℕ → ℚ) (keys : Keys) (rnds : ℕ → TickRand) :
    ℕ → Game → Game
  | 0, g => g
  | k + 1, g => update (nows k) keys (rnds k) (iterateUpdate nows keys rnds k g)

/-- Verification invariant for the pre-spawn phase of a fresh session: no
asteroids yet, frame counter at `k`, no spawn recorded, game running, no
bullets, ships at their fixed horizontal lane. -/
def noSpawnInv (g : Game) (k : ℤ) : Prop :=
  g.asteroids = [] ∧ g.frameCount = k ∧ g.lastAsteroidSpawn = 0 ∧
  g.gameOver = false ∧ g.isPaused = false ∧
  g.player1.x = 100 ∧ g.player1.width = 60 ∧ g.player1.bullets = [] ∧
  g.player2.x = 100 ∧ g.player2.width = 60 ∧ g.player2.bullets = []

lemma updatePlayer_x (u d : Bool) (p : Player) : (updatePlayer u d p).x = p.x := by
  unfold updatePlayer
  dsimp only
  repeat' split
  all_goals rfl

lemma updatePlayer_width (u d : Bool) (p : Player) :
    (updatePlayer u d p).width = p.width := by
  unfold updatePlayer
  dsimp only
  repeat' split
  all_goals rfl

lemma updatePlayer_bullets (u d : Bool) (p : Player) :
    (updatePlayer u d p).bullets = p.bullets := by
  unfold updatePlayer
  dsimp only
  repeat' split
  all_goals rfl

lemma movePhase_inv (keys : Keys) (g : Game) :
    (movePhase keys g).asteroids = g.asteroids ∧
    (movePhase keys g).hearts = g.hearts ∧
    (movePhase keys g).frameCount = g.frameCount ∧
    (movePhase keys g).lastAsteroidSpawn = g.lastAsteroidSpawn ∧
    (movePhase keys g).gameOver = g.gameOver ∧
    (movePhase keys g).isPaused = g.isPaused ∧
    (movePhase keys g).player1.x = g.player1.x ∧
    (movePhase keys g).player1.width = g.player1.width ∧
    (movePhase keys g).player1.bullets = g.player1.bullets ∧
    (movePhase keys g).player2.x = g.player2.x ∧
    (movePhase keys g).player2.width = g.player2.width ∧
    (movePhase keys g).player2.bullets = g.player2.bullets := by
  unfold movePhase
  dsimp only
  repeat' split
  all_goals simp [updatePlayer_x, updatePlayer_width, updatePlayer_bullets]

lemma spawnPhase_no (rnd : TickRand) (g : Game)
    (h : decide (g.frameCount + 1 - g.lastAsteroidSpawn > config_asteroidSpawnRate) = false)
    (h2 : decide ((g.frameCount + 1) % config_heartSpawnRate = 0) = false) :
    spawnPhase rnd g = { g with frameCount := g.frameCount + 1 } := by
  unfold spawnPhase
  dsimp only
  simp only [h, h2, Bool.false_eq_true, if_false, Bool.false_and]

lemma spawnPhase_yes (rnd : TickRand) (g : Game)
    (h : decide (g.frameCount + 1 - g.lastAsteroidSpawn > config_asteroidSpawnRate) = true)
    (h2 : decide ((g.frameCount + 1) % config_heartSpawnRate = 0) = false) :
    spawnPhase rnd g = { g with
      frameCount := g.frameCount + 1,
      asteroids := g.asteroids ++ [spawnAsteroid rnd.r1 rnd.r2 rnd.r3],
      lastAsteroidSpawn := g.frameCount + 1 } := by
  unfold spawnPhase
  dsimp only
  simp only [h, if_true, h2, Bool.false_eq_true, if_false, Bool.false_and]

lemma updateBullets_nil_bullets (p : Player) (h : p.bullets = []) :
    (updateBullets p).bullets = [] := by
  simp [updateBullets, h]

lemma motionPhase_inv (g : Game)
    (hb1 : g.player1.bullets = []) (hb2 : g.player2.bullets = []) :
    (motionPhase g).asteroids = updateAsteroids g.asteroids ∧
    (motionPhase g).frameCount = g.frameCount ∧
    (motionPhase g).lastAsteroidSpawn = g.lastAsteroidSpawn ∧
    (motionPhase g).gameOver = g.gameOver ∧
    (motionPhase g).isPaused = g.isPaused ∧
    (motionPhase g).player1.x = g.player1.x ∧
    (motionPhase g).player1.width = g.player1.width ∧
    (motionPhase g).player1.bullets = [] ∧
    (motionPhase g).player2.x = g.player2.x ∧
    (motionPhase g).player2.width = g.player2.width ∧
    (motionPhase g).player2.bullets = [] := by
  unfold motionPhase
  dsimp only
  split <;> simp [updateBullets, hb1, hb2]

/-- `checkPlayerCollision` is the identity when the backward scan finds no
overlapping asteroid. -/
lemma checkPlayerCollision_noHit (now : ℚ) (g : Game) (pid : PlayerId)
    (h : findCollisionRev (g.getPlayer pid) g.asteroids = none) :
    checkPlayerCollision now g pid = g := by
  unfold checkPlayerCollision
  dsimp only
  split
  · rfl
  · split
    · rfl
    · rw [h]

/-- `checkBulletCollisions` is the identity for a player with no
bullets. -/
lemma checkBulletCollisions_noBullets (now : ℚ) (g : Game) (pid : PlayerId)
    (h : (g.getPlayer pid).bullets = []) :
    checkBulletCollisions now g pid = g := by
  cases pid <;>
    (unfold checkBulletCollisions
     dsimp only [Game.getPlayer_one, Game.getPlayer_two, Game.setPlayer_one,
       Game.setPlayer_two]
     simp only [Game.getPlayer_one, Game.getPlayer_two] at h
     rw [h]
     simp only [bulletScan, scanBullets, spliceEach, sortDesc, List.reverse_nil,
       List.foldl_nil, add_zero, List.append_nil]
     rw [← h])

lemma checkCollisions_inv (now : ℚ) (g : Game)
    (hf1 : findCollisionRev g.player1 g.asteroids = none)
    (hf2 : findCollisionRev g.player2 g.asteroids = none)
    (hb1 : g.player1.bullets = []) (hb2 : g.player2.bullets = []) :
    (checkCollisions now g).asteroids = g.asteroids ∧
    (checkCollisions now g).frameCount = g.frameCount ∧
    (checkCollisions now g).lastAsteroidSpawn = g.lastAsteroidSpawn ∧
    (checkCollisions now g).gameOver = g.gameOver ∧
    (checkCollisions now g).isPaused = g.isPaused ∧
    (checkCollisions now g).player1.x = g.player1.x ∧
    (checkCollisions now g).player1.width = g.player1.width ∧
    (checkCollisions now g).player1.bullets = [] ∧
    (checkCollisions now g).player2.x = g.player2.x ∧
    (checkCollisions now g).player2.width = g.player2.width ∧
    (checkCollisions now g).player2.bullets = [] := by
  unfold checkCollisions
  dsimp only
  rw [checkPlayerCollision_noHit now g .one hf1]
  have e2 : (if g.isTwoPlayerMode = true then checkPlayerCollision now g .two else g) = g := by
    split
    · exact checkPlayerCollision_noHit now g .two hf2
    · rfl
  rw [e2]
  rw [checkBulletCollisions_noBullets now g .one hb1]
  have e4 : (if g.isTwoPlayerMode = true then checkBulletCollisions now g .two else g) = g := by
    split
    · exact checkBulletCollisions_noBullets now g .two hb2
    · rfl
  rw [e4]
  split <;> simp [checkHeartCollection, hb1, hb2]

lemma update_noSpawn_step (now : ℚ) (keys : Keys) (rnd : TickRand) (g : Game)
    (k : ℤ) (hk0 : 0 ≤ k) (hk : k + 1 ≤ 100) (hI : noSpawnInv g k) :
    noSpawnInv (update now keys rnd g) (k + 1) := by
  obtain ⟨hA, hF, hL, hG, hP, x1, w1, b1, x2, w2, b2⟩ := hI
  unfold update
  simp only [hG, hP, Bool.or_self, Bool.false_eq_true, if_false]
  obtain ⟨mA, mH, mF, mL, mG, mP, mx1, mw1, mb1, mx2, mw2, mb2⟩ := movePhase_inv keys g
  have hs1 : decide ((movePhase keys g).frameCount + 1 -
      (movePhase keys g).lastAsteroidSpawn > config_asteroidSpawnRate) = false := by
    rw [mF, mL, hF, hL]
    simp only [decide_eq_false_iff_not, config_asteroidSpawnRate]
    omega
  have hs2 : decide (((movePhase keys g).frameCount + 1) %
      config_heartSpawnRate = 0) = false := by
    rw [mF, hF]
    simp only [decide_eq_false_iff_not, config_heartSpawnRate]
    omega
  rw [spawnPhase_no rnd _ hs1 hs2]
  have sb1 : ({ movePhase keys g with
      frameCount := (movePhase keys g).frameCount + 1 } : Game).player1.bullets = [] := by
    dsimp only
    rw [mb1, b1]
  have sb2 : ({ movePhase keys g with
      frameCount := (movePhase keys g).frameCount + 1 } : Game).player2.bullets = [] := by
    dsimp only
    rw [mb2, b2]
  obtain ⟨uA, uF, uL, uG, uP, ux1, uw1, ub1, ux2, uw2, ub2⟩ :=
    motionPhase_inv ({ movePhase keys g with
      frameCount := (movePhase keys g).frameCount + 1 } : Game) sb1 sb2
  have uA2 : (motionPhase ({ movePhase keys g with
      frameCount := (movePhase keys g).frameCount + 1 } : Game)).asteroids = [] := by
    rw [uA]
    dsimp only
    rw [mA, hA]
    rfl
  have hf1 : findCollisionRev
      (motionPhase ({ movePhase keys g with
        frameCount := (movePhase keys g).frameCount + 1 } : Game)).player1
      (motionPhase ({ movePhase keys g with
        frameCount := (movePhase keys g).frameCount + 1 } : Game)).asteroids = none := by
    rw [uA2]
    rfl
  have hf2 : findCollisionRev
      (motionPhase ({ movePhase keys g with
        frameCount := (movePhase keys g).frameCount + 1 } : Game)).player2
      (motionPhase ({ movePhase keys g with
        frameCount := (movePhase keys g).frameCount + 1 } : Game)).asteroids = none := by
    rw [uA2]
    rfl
  obtain ⟨cA, cF, cL, cG, cP, cx1, cw1, cb1, cx2, cw2, cb2⟩ :=
    checkCollisions_inv now _ hf1 hf2 ub1 ub2
  refine ⟨?_, ?_, ?_, ?_, ?_, ?_, ?_, cb1, ?_, ?_, cb2⟩
  · rw [cA, uA2]
  · rw [cF, uF]
    dsimp only
    rw [mF, hF]
  · rw [cL, uL]
    dsimp only
    rw [mL, hL]
  · rw [cG, uG]
    dsimp only
    rw [mG, hG]
  · rw [cP, uP]
    dsimp only
    rw [mP, hP]
  · rw [cx1, ux1]
    dsimp only
    rw [mx1, x1]
  · rw [cw1, uw1]
    dsimp only
    rw [mw1, w1]
  · rw [cx2, ux2]
    dsimp only
    rw [mx2, x2]
  · rw [cw2, uw2]
    dsimp only
    rw [mw2, w2]

lemma update_spawn_step (now : ℚ) (keys : Keys) (rnd : TickRand) (g : Game)
    (hI : noSpawnInv g 100)
    (hr1 : 0 ≤ rnd.r1) (hr2 : rnd.r1 < 1)
    (hr5 : 0 ≤ rnd.r3) (hr6 : rnd.r3 < 1) :
    (update now keys rnd g).asteroids =
      updateAsteroids [spawnAsteroid rnd.r1 rnd.r2 rnd.r3] ∧
    (update now keys rnd g).lastAsteroidSpawn = 101 ∧
    (update now keys rnd g).frameCount = 101 := by
  obtain ⟨hA, hF, hL, hG, hP, x1, w1, b1, x2, w2, b2⟩ := hI
  unfold update
  simp only [hG, hP, Bool.or_self, Bool.false_eq_true, if_false]
  obtain ⟨mA, mH, mF, mL, mG, mP, mx1, mw1, mb1, mx2, mw2, mb2⟩ := movePhase_inv keys g
  have hs1 : decide ((movePhase keys g).frameCount + 1 -
      (movePhase keys g).lastAsteroidSpawn > config_asteroidSpawnRate) = true := by
    rw [mF, mL, hF, hL]
    simp only [decide_eq_true_eq, config_asteroidSpawnRate]
    omega
  have hs2 : decide (((movePhase keys g).frameCount + 1) %
      config_heartSpawnRate = 0) = false := by
    rw [mF, hF]
    simp only [decide_eq_false_iff_not, config_heartSpawnRate]
    omega
  rw [spawnPhase_yes rnd _ hs1 hs2]
  have sb1 : ({ movePhase keys g with
      frameCount := (movePhase keys g).frameCount + 1,
      asteroids := (movePhase keys g).asteroids ++ [spawnAsteroid rnd.r1 rnd.r2 rnd.r3],
      lastAsteroidSpawn := (movePhase keys g).frameCount + 1 } : Game).player1.bullets
      = [] := by
    dsimp only
    rw [mb1, b1]
  have sb2 : ({ movePhase keys g with
      frameCount := (movePhase keys g).frameCount + 1,
      asteroids := (movePhase keys g).asteroids ++ [spawnAsteroid rnd.r1 rnd.r2 rnd.r3],
      lastAsteroidSpawn := (movePhase keys g).frameCount + 1 } : Game).player2.bullets
      = [] := by
    dsimp only
    rw [mb2, b2]
  obtain ⟨uA, uF, uL, uG, uP, ux1, uw1, ub1, ux2, uw2, ub2⟩ :=
    motionPhase_inv ({ movePhase keys g with
      frameCount := (movePhase keys g).frameCount + 1,
      asteroids := (movePhase keys g).asteroids ++ [spawnAsteroid rnd.r1 rnd.r2 rnd.r3],
      lastAsteroidSpawn := (movePhase keys g).frameCount + 1 } : Game) sb1 sb2
  have uA2 : (motionPhase ({ movePhase keys g with
      frameCount := (movePhase keys g).frameCount + 1,
      asteroids := (movePhase keys g).asteroids ++ [spawnAsteroid rnd.r1 rnd.r2 rnd.r3],
      lastAsteroidSpawn := (movePhase keys g).frameCount + 1 } : Game)).asteroids =
      updateAsteroids [spawnAsteroid rnd.r1 rnd.r2 rnd.r3] := by
    rw [uA]
    dsimp only
    rw [mA, hA]
    rw [List.nil_append]
  have hspeed : (spawnAsteroid rnd.r1 rnd.r2 rnd.r3).speed < 1 := by
    simp only [spawnAsteroid, config_asteroidSpeed]
    nlinarith
  have hkeep : updateAsteroids [spawnAsteroid rnd.r1 rnd.r2 rnd.r3] =
      [{ spawnAsteroid rnd.r1 rnd.r2 rnd.r3 with
          x := (spawnAsteroid rnd.r1 rnd.r2 rnd.r3).x -
            (spawnAsteroid rnd.r1 rnd.r2 rnd.r3).speed }] := by
    have hpos : ¬((spawnAsteroid rnd.r1 rnd.r2 rnd.r3).x -
        (spawnAsteroid rnd.r1 rnd.r2 rnd.r3).speed +
        (spawnAsteroid rnd.r1 rnd.r2 rnd.r3).width < 0) := by
      simp only [spawnAsteroid, config_width, config_asteroidSpeed]
      nlinarith
    simp [updateAsteroids, hpos]
  have hxlarge : (160 : ℚ) ≤ (spawnAsteroid rnd.r1 rnd.r2 rnd.r3).x -
      (spawnAsteroid rnd.r1 rnd.r2 rnd.r3).speed := by
    simp only [spawnAsteroid, config_width, config_asteroidSpeed]
    nlinarith
  have hov : ∀ p : Player, p.x = 100 → p.width = 60 →
      p.toRect.overlap ({ spawnAsteroid rnd.r1 rnd.r2 rnd.r3 with
        x := (spawnAsteroid rnd.r1 rnd.r2 rnd.r3).x -
          (spawnAsteroid rnd.r1 rnd.r2 rnd.r3).speed } : Asteroid).toRect = false := by
    intro p hx hw
    have hngt : ¬(p.x + p.width > (spawnAsteroid rnd.r1 rnd.r2 rnd.r3).x -
        (spawnAsteroid rnd.r1 rnd.r2 rnd.r3).speed) := by
      rw [hx, hw]
      linarith [hxlarge]
    have hd2 : decide (p.x + p.width > (spawnAsteroid rnd.r1 rnd.r2 rnd.r3).x -
        (spawnAsteroid rnd.r1 rnd.r2 rnd.r3).speed) = false :=
      decide_eq_false_iff_not.mpr hngt
    simp only [Rect.overlap, Player.toRect, Asteroid.toRect]
    dsimp only
    simp only [hd2, Bool.and_false, Bool.false_and]
  have hfgen : ∀ p : Player, p.x = 100 → p.width = 60 →
      findCollisionRev p (updateAsteroids [spawnAsteroid rnd.r1 rnd.r2 rnd.r3]) = none := by
    intro p hx hw
    rw [hkeep]
    simp [findCollisionRev, List.enum, List.enumFrom, hov p hx hw]
  have hf1 := hfgen _ (by rw [ux1]; dsimp only; rw [mx1, x1])
    (by rw [uw1]; dsimp only; rw [mw1, w1])
  have hf2 := hfgen _ (by rw [ux2]; dsimp only; rw [mx2, x2])
    (by rw [uw2]; dsimp only; rw [mw2, w2])
  rw [← uA2] at hf1 hf2
  obtain ⟨cA, cF, cL, cG, cP, cx1, cw1, cb1, cx2, cw2, cb2⟩ :=
    checkCollisions_inv now _ hf1 hf2 ub1 ub2
  refine ⟨?_, ?_, ?_⟩
  · rw [cA, uA2]
  · rw [cL, uL]
    dsimp only
    rw [mF, hF]
    norm_num
  · rw [cF, uF]
    dsimp only
    rw [mF, hF]
    norm_num

lemma iterate_noSpawnInv (nows : ℕ → ℚ) (keys : Keys) (rnds : ℕ → TickRand) :
    ∀ k : ℕ, k ≤ 100 →
      noSpawnInv (iterateUpdate nows keys rnds k initialGame) k := by
  intro k
  induction k with
  | zero =>
      intro _
      exact ⟨rfl, rfl, rfl, rfl, rfl, rfl, rfl, rfl, rfl, rfl, rfl⟩
  | succ n ih =>
      intro hk
      have h1 := ih (by omega)
      have h2 := update_noSpawn_step (nows n) keys (rnds n) _ n
        (by exact_mod_cast Nat.zero_le n) (by exact_mod_cast hk) h1
      rw [show ((n + 1 : ℕ) : ℤ) = (n : ℤ) + 1 by push_cast; ring]
      exact h2

lemma spawnAsteroid_bounds (r1 r2 r3 : ℚ)
    (h1 : 0 ≤ r1) (h2 : r1 < 1) (h3 : 0 ≤ r2) (h4 : r2 < 1)
    (h5 : 0 ≤ r3) (h6 : r3 < 1) :
    (spawnAsteroid r1 r2 r3).x = config_width ∧
    20 ≤ (spawnAsteroid r1 r2 r3).width ∧
    (spawnAsteroid r1 r2 r3).width ≤ 50 ∧
    0 ≤ (spawnAsteroid r1 r2 r3).y ∧
    (spawnAsteroid r1 r2 r3).y ≤ config_height - (spawnAsteroid r1 r2 r3).width ∧
    config_asteroidSpeed * (1/2) ≤ (spawnAsteroid r1 r2 r3).speed ∧
    (spawnAsteroid r1 r2 r3).speed ≤ config_asteroidSpeed := by
  refine ⟨rfl, ?_, ?_, ?_, ?_, ?_, ?_⟩ <;>
    (simp only [spawnAsteroid, config_width, config_height, config_asteroidSpeed]
     nlinarith)

/-- C9: from a fresh session (arbitrary held keys and timestamps, random
draws in `[0, 1)`), no asteroid exists through ticks 1..100 and the frame
counter tracks the tick count; the tick that brings `frameCount` to 101 —
the first with `frameCount - lastAsteroidSpawn > 100` — appends exactly
one asteroid, spawned at `x = fieldWidth` with side in `[20, 50]`,
`y ∈ [0, fieldHeight - size]` and speed in
`[baseSpeed·0.5, baseSpeed·1.0]` (the same tick's motion phase then moves
it left by its speed), and records `lastAsteroidSpawn = 101` so no
further asteroid spawns before frame 202. -/
theorem c9_first_spawn (nows : ℕ → ℚ) (keys : Keys) (rnds : ℕ → TickRand)
    (hr1 : 0 ≤ (rnds 100).r1) (hr2 : (rnds 100).r1 < 1)
    (hr3 : 0 ≤ (rnds 100).r2) (hr4 : (rnds 100).r2 < 1)
    (hr5 : 0 ≤ (rnds 100).r3) (hr6 : (rnds 100).r3 < 1) :
    (∀ k : ℕ, k ≤ 100 →
      (iterateUpdate nows keys rnds k initialGame).asteroids = [] ∧
      (iterateUpdate nows keys rnds k initialGame).frameCount = k ∧
      (iterateUpdate nows keys rnds k initialGame).lastAsteroidSpawn = 0) ∧
    (iterateUpdate nows keys rnds 101 initialGame).asteroids =
      updateAsteroids [spawnAsteroid (rnds 100).r1 (rnds 100).r2 (rnds 100).r3] ∧
    (iterateUpdate nows keys rnds 101 initialGame).lastAsteroidSpawn = 101 ∧
    (iterateUpdate nows keys rnds 101 initialGame).frameCount = 101 ∧
    (spawnAsteroid (rnds 100).r1 (rnds 100).r2 (rnds 100).r3).x = config_width ∧
    20 ≤ (spawnAsteroid (rnds 100).r1 (rnds 100).r2 (rnds 100).r3).width ∧
    (spawnAsteroid (rnds 100).r1 (rnds 100).r2 (rnds 100).r3).width ≤ 50 ∧
    0 ≤ (spawnAsteroid (rnds 100).r1 (rnds 100).r2 (rnds 100).r3).y ∧
    (spawnAsteroid (rnds 100).r1 (rnds 100).r2 (rnds 100).r3).y ≤
      config_height - (spawnAsteroid (rnds 100).r1 (rnds 100).r2 (rnds 100).r3).width ∧
    config_asteroidSpeed * (1/2) ≤
      (spawnAsteroid (rnds 100).r1 (rnds 100).r2 (rnds 100).r3).speed ∧
    (spawnAsteroid (rnds 100).r1 (rnds 100).r2 (rnds 100).r3).speed ≤
      config_asteroidSpeed := by
  have hpart1 : ∀ k : ℕ, k ≤ 100 →
      (iterateUpdate nows keys rnds k initialGame).asteroids = [] ∧
      (iterateUpdate nows keys rnds k initialGame).frameCount = k ∧
      (iterateUpdate nows keys rnds k initialGame).lastAsteroidSpawn = 0 := by
    intro k hk
    obtain ⟨a, b, c, _⟩ := iterate_noSpawnInv nows keys rnds k hk
    exact ⟨a, b, c⟩
  have hI : noSpawnInv (iterateUpdate nows keys rnds 100 initialGame) 100 := by
    have := iterate_noSpawnInv nows keys rnds 100 (by omega)
    exact_mod_cast this
  have hstep := update_spawn_step (nows 100) keys (rnds 100)
    (iterateUpdate nows keys rnds 100 initialGame) hI hr1 hr2 hr5 hr6
  have hb := spawnAsteroid_bounds (rnds 100).r1 (rnds 100).r2 (rnds 100).r3
    hr1 hr2 hr3 hr4 hr5 hr6
  refine ⟨hpart1, ?_, ?_, ?_, hb.1, hb.2.1, hb.2.2.1, hb.2.2.2.1,
    hb.2.2.2.2.1, hb.2.2.2.2.2.1, hb.2.2.2.2.2.2⟩
  · exact hstep.1
  · exact hstep.2.1
  · exact hstep.2.2

/-- Witness for `c9_first_spawn` with all timestamps 0, no keys held and
the fixed draw `rnd0`. -/
theorem c9_first_spawn_witness :
    (iterateUpdate (fun _ => 0) keysNone (fun _ => rnd0) 100 initialGame).asteroids
      = [] ∧
    (iterateUpdate (fun _ => 0) keysNone (fun _ => rnd0) 100 initialGame).frameCount
      = 100 ∧
    (iterateUpdate (fun _ => 0) keysNone (fun _ => rnd0) 101 initialGame).asteroids =
      updateAsteroids [spawnAsteroid rnd0.r1 rnd0.r2 rnd0.r3] ∧
    (iterateUpdate (fun _ => 0) keysNone (fun _ => rnd0) 101 initialGame).lastAsteroidSpawn
      = 101 ∧
    (spawnAsteroid rnd0.r1 rnd0.r2 rnd0.r3).x = config_width := by
  have h := c9_first_spawn (fun _ => 0) keysNone (fun _ => rnd0)
    (by norm_num [rnd0]) (by norm_num [rnd0]) (by norm_num [rnd0])
    (by norm_num [rnd0]) (by norm_num [rnd0]) (by norm_num [rnd0])
  obtain ⟨h1, h2, h3, h4, h5, _⟩ := h
  obtain ⟨a, b, _⟩ := h1 100 (by omega)
  exact ⟨a, by exact_mod_cast b, h2, h3, h5⟩

end SpaceFlight
